import Mathlib

/-
Shallow embedding of src/galpy/util/bovy_symplecticode.c.

Scalars are idealized as real numbers; phase-space vectors as lists of reals.
The caller-supplied C function pointers (drift, kick, acceleration func,
tol_scaling, metric) are modelled as Lean functions; the opaque
nargs/potentialArgs bundle is absorbed into those function values.
The process-wide cancellation flag (volatile sig_atomic_t interrupted) is
modelled by a function flag : Nat -> Bool giving the value the poll at the
start of macro interval ii would observe; the integration loops consume it
exactly as the C code does (read at loop top, reset on observation).
-/

namespace Galpy

noncomputable section

/-- C cast `(long) x` on a double: truncation toward zero. -/
def cTrunc (x : ℝ) : ℤ := if 0 ≤ x then ⌊x⌋ else ⌈x⌉

/-- leapfrog_leapq: qn[ii] = q[ii] + dt * p[ii] for ii < dim. -/
def leapfrog_leapq : ℕ → List ℝ → List ℝ → ℝ → List ℝ
  | 0, _, _, _ => []
  | _ + 1, [], _, _ => []
  | _ + 1, _, [], _ => []
  | d + 1, x :: xs, v :: vs, dt => (x + dt * v) :: leapfrog_leapq d xs vs dt

/-- leapfrog_leapp: pn[ii] = p[ii] + dt * a[ii] for ii < dim. -/
def leapfrog_leapp : ℕ → List ℝ → ℝ → List ℝ → List ℝ
  | 0, _, _, _ => []
  | _ + 1, [], _, _ => []
  | _ + 1, _, _, [] => []
  | d + 1, x :: xs, dt, w :: ws => (x + dt * w) :: leapfrog_leapp d xs dt ws

/-- save_qp: copy dim entries of qo then dim entries of po into the result block. -/
def save_qp (dim : ℕ) (qo po : List ℝ) : List ℝ :=
  qo.take dim ++ po.take dim

/-- The cylindrical transform applied by save_result: result[2] /= result[0]. -/
def lzDiv (b : List ℝ) : List ℝ :=
  b.set 2 (b.getD 2 0 / b.getD 0 0)

/-- save_result: copy dim entries of yo; if construct_Lz, divide entry 2 by entry 0
of the copy (the caller's yo is untouched). -/
def save_result (dim : ℕ) (yo : List ℝ) (construct_Lz : Bool) : List ℝ :=
  if construct_Lz then lzDiv (yo.take dim) else yo.take dim

/-- The in-place initialization `*(yo+2) *= *yo` done by leapfrog/symplec4
when construct_Lz is set. -/
def lzInit (yo : List ℝ) : List ℝ :=
  yo.set 2 (yo.getD 2 0 * yo.getD 0 0)

/-- A single call to one of the caller-supplied step kernels: a drift by some
time step, or a kick by some time step evaluated at some time. -/
inductive SymOp where
  | drift (d : ℝ)
  | kick (d tm : ℝ)

/-- Apply one recorded kernel call to a combined phase-space vector. -/
def applyOp (drift : ℝ → List ℝ → List ℝ) (kick : ℝ → ℝ → List ℝ → List ℝ) :
    SymOp → List ℝ → List ℝ
  | SymOp.drift d, y => drift d y
  | SymOp.kick d tm, y => kick d tm y

/-- Apply a sequence of recorded kernel calls in order. -/
def applyOps (drift : ℝ → List ℝ → List ℝ) (kick : ℝ → ℝ → List ℝ → List ℝ)
    (ops : List SymOp) (y : List ℝ) : List ℝ :=
  ops.foldl (fun s op => applyOp drift kick op s) y

/-- Number of kick calls in a recorded sequence. -/
def kickCount (l : List SymOp) : ℕ :=
  l.countP fun op => match op with | SymOp.kick _ _ => true | _ => false

/-- Total drift time of a recorded sequence. -/
def driftTotal (l : List SymOp) : ℝ :=
  (l.map fun op => match op with | SymOp.drift d => d | _ => 0).sum

/-- The inner sub-step loop of a leapfrog macro interval
(`for (jj=0; jj < (ndt-1); jj++){ kick(dt,to+dt/2.,..); drift(dt,..); to= to+dt; }`),
recorded as kernel calls together with the final time. -/
def leapfrogInnerOps (dt : ℝ) : ℕ → ℝ → List SymOp × ℝ
  | 0, tnow => ([], tnow)
  | j + 1, tnow =>
    let r := leapfrogInnerOps dt j (tnow + dt)
    (SymOp.kick dt (tnow + dt / 2) :: SymOp.drift dt :: r.1, r.2)

/-- One leapfrog macro interval (source lines 159-170): half drift, inner loop,
final kick and half drift, recorded as kernel calls together with the final time. -/
def leapfrogIntervalOps (dt : ℝ) (inner : ℕ) (tnow : ℝ) : List SymOp × ℝ :=
  let r := leapfrogInnerOps dt inner tnow
  (SymOp.drift (dt / 2) ::
     (r.1 ++ [SymOp.kick dt (r.2 + dt / 2), SymOp.drift (dt / 2)]), r.2 + dt)

/-- The state map of one leapfrog macro interval on (to, yo). -/
def leapfrogIntervalBody (drift : ℝ → List ℝ → List ℝ) (kick : ℝ → ℝ → List ℝ → List ℝ)
    (dt : ℝ) (inner : ℕ) (s : ℝ × List ℝ) : ℝ × List ℝ :=
  ((leapfrogIntervalOps dt inner s.1).2,
   applyOps drift kick (leapfrogIntervalOps dt inner s.1).1 s.2)

namespace S4

/-- symplec4 coefficient c1 = 0.6756035959798289. -/
def c1 : ℝ := 0.6756035959798289

/-- symplec4 coefficient c4 = c1. -/
def c4 : ℝ := c1

/-- symplec4 coefficient c41 = c4 + c1. -/
def c41 : ℝ := c4 + c1

/-- symplec4 coefficient c2 = -0.1756035959798288. -/
def c2 : ℝ := -0.1756035959798288

/-- symplec4 coefficient c3 = c2. -/
def c3 : ℝ := c2

/-- symplec4 coefficient d1 = 1.3512071919596578. -/
def d1 : ℝ := 1.3512071919596578

/-- symplec4 coefficient d3 = d1. -/
def d3 : ℝ := d1

/-- symplec4 coefficient d2 = -1.7024143839193153 (d4 = 0). -/
def d2 : ℝ := -1.7024143839193153

end S4

/-- The inner sub-step loop of a symplec4 macro interval (source lines 268-279),
fusing the boundary drift stages (c4 + c1). -/
def symplec4IntervalInner (drift : ℝ → List ℝ → List ℝ) (kick : ℝ → ℝ → List ℝ → List ℝ)
    (dt : ℝ) : ℕ → ℝ × List ℝ → ℝ × List ℝ
  | 0, s => s
  | j + 1, s =>
    let tnow := s.1
    let y := kick (S4.d1 * dt) tnow s.2
    let y := drift (S4.c2 * dt) y
    let tnow := tnow + S4.c2 * dt
    let y := kick (S4.d2 * dt) tnow y
    let y := drift (S4.c3 * dt) y
    let tnow := tnow + S4.c3 * dt
    let y := kick (S4.d3 * dt) tnow y
    let y := drift (S4.c41 * dt) y
    let tnow := tnow + S4.c41 * dt
    symplec4IntervalInner drift kick dt j (tnow, y)

/-- The state map of one symplec4 macro interval on (to, yo) (source lines 264-289). -/
def symplec4IntervalBody (drift : ℝ → List ℝ → List ℝ) (kick : ℝ → ℝ → List ℝ → List ℝ)
    (dt : ℝ) (inner : ℕ) (s : ℝ × List ℝ) : ℝ × List ℝ :=
  let y := drift (S4.c1 * dt) s.2
  let tnow := s.1 + S4.c1 * dt
  let s1 := symplec4IntervalInner drift kick dt inner (tnow, y)
  let tnow := s1.1
  let y := kick (S4.d1 * dt) tnow s1.2
  let y := drift (S4.c2 * dt) y
  let tnow := tnow + S4.c2 * dt
  let y := kick (S4.d2 * dt) tnow y
  let y := drift (S4.c3 * dt) y
  let tnow := tnow + S4.c3 * dt
  let y := kick (S4.d3 * dt) tnow y
  let y := drift (S4.c4 * dt) y
  let tnow := tnow + S4.c4 * dt
  (tnow, y)

namespace S6

/-- symplec6 coefficient c1 = 0.392256805238780. -/
def c1 : ℝ := 0.392256805238780

/-- symplec6 coefficient c8 = c1. -/
def c8 : ℝ := c1

/-- symplec6 coefficient c2 = 0.510043411918458. -/
def c2 : ℝ := 0.510043411918458

/-- symplec6 coefficient c7 = c2. -/
def c7 : ℝ := c2

/-- symplec6 coefficient c3 = -0.471053385409758. -/
def c3 : ℝ := -0.471053385409758

/-- symplec6 coefficient c6 = c3. -/
def c6 : ℝ := c3

/-- symplec6 coefficient c4 = 0.687531682525198e-1. -/
def c4 : ℝ := 0.687531682525198e-1

/-- symplec6 coefficient c5 = c4. -/
def c5 : ℝ := c4

/-- symplec6 coefficient d1 = 0.784513610477560. -/
def d1 : ℝ := 0.784513610477560

/-- symplec6 coefficient d7 = d1. -/
def d7 : ℝ := d1

/-- symplec6 coefficient d2 = 0.235573213359357. -/
def d2 : ℝ := 0.235573213359357

/-- symplec6 coefficient d6 = d2. -/
def d6 : ℝ := d2

/-- symplec6 coefficient d3 = -0.117767998417887e1. -/
def d3 : ℝ := -0.117767998417887e1

/-- symplec6 coefficient d5 = d3. -/
def d5 : ℝ := d3

/-- symplec6 coefficient d4 = 0.131518632068391e1 (d8 = 0). -/
def d4 : ℝ := 0.131518632068391e1

end S6

/-- The inner sub-step loop of a symplec6 macro interval (source lines 394-442).
The carried state is (to, q12, po) as read at the top of each jj-iteration; the
final reset (q12 = qo, po = p12) feeds the next iteration. -/
def symplec6IntervalInner (func : ℝ → List ℝ → List ℝ) (dim : ℕ) (dt : ℝ) :
    ℕ → ℝ × List ℝ × List ℝ → ℝ × List ℝ × List ℝ
  | 0, s => s
  | j + 1, s =>
    let tnow := s.1
    let q12 := s.2.1
    let po := s.2.2
    let a := func tnow q12
    let p12 := leapfrog_leapp dim po (S6.d1 * dt) a
    let qo := leapfrog_leapq dim q12 p12 (S6.c2 * dt)
    let tnow := tnow + S6.c2 * dt
    let a := func tnow qo
    let po := leapfrog_leapp dim p12 (S6.d2 * dt) a
    let q12 := leapfrog_leapq dim qo po (S6.c3 * dt)
    let tnow := tnow + S6.c3 * dt
    let a := func tnow q12
    let p12 := leapfrog_leapp dim po (S6.d3 * dt) a
    let qo := leapfrog_leapq dim q12 p12 (S6.c4 * dt)
    let tnow := tnow + S6.c4 * dt
    let a := func tnow qo
    let po := leapfrog_leapp dim p12 (S6.d4 * dt) a
    let q12 := leapfrog_leapq dim qo po (S6.c5 * dt)
    let tnow := tnow + S6.c5 * dt
    let a := func tnow q12
    let p12 := leapfrog_leapp dim po (S6.d5 * dt) a
    let qo := leapfrog_leapq dim q12 p12 (S6.c6 * dt)
    let tnow := tnow + S6.c6 * dt
    let a := func tnow qo
    let po := leapfrog_leapp dim p12 (S6.d6 * dt) a
    let q12 := leapfrog_leapq dim qo po (S6.c7 * dt)
    let tnow := tnow + S6.c7 * dt
    let a := func tnow q12
    let p12 := leapfrog_leapp dim po (S6.d7 * dt) a
    let qo := leapfrog_leapq dim q12 p12 ((S6.c8 + S6.c1) * dt)
    let tnow := tnow + (S6.c8 + S6.c1) * dt
    symplec6IntervalInner func dim dt j (tnow, qo, p12)

/-- The state map of one symplec6 macro interval on (to, qo, po)
(source lines 390-487), ending with po = p12 (p8 = p7). -/
def symplec6IntervalBody (func : ℝ → List ℝ → List ℝ) (dim : ℕ) (dt : ℝ) (inner : ℕ)
    (s : ℝ × List ℝ × List ℝ) : ℝ × List ℝ × List ℝ :=
  let q12 := leapfrog_leapq dim s.2.1 s.2.2 (S6.c1 * dt)
  let tnow := s.1 + S6.c1 * dt
  let s1 := symplec6IntervalInner func dim dt inner (tnow, q12, s.2.2)
  let tnow := s1.1
  let q12 := s1.2.1
  let po := s1.2.2
  let a := func tnow q12
  let p12 := leapfrog_leapp dim po (S6.d1 * dt) a
  let qo := leapfrog_leapq dim q12 p12 (S6.c2 * dt)
  let tnow := tnow + S6.c2 * dt
  let a := func tnow qo
  let po := leapfrog_leapp dim p12 (S6.d2 * dt) a
  let q12 := leapfrog_leapq dim qo po (S6.c3 * dt)
  let tnow := tnow + S6.c3 * dt
  let a := func tnow q12
  let p12 := leapfrog_leapp dim po (S6.d3 * dt) a
  let qo := leapfrog_leapq dim q12 p12 (S6.c4 * dt)
  let tnow := tnow + S6.c4 * dt
  let a := func tnow qo
  let po := leapfrog_leapp dim p12 (S6.d4 * dt) a
  let q12 := leapfrog_leapq dim qo po (S6.c5 * dt)
  let tnow := tnow + S6.c5 * dt
  let a := func tnow q12
  let p12 := leapfrog_leapp dim po (S6.d5 * dt) a
  let qo := leapfrog_leapq dim q12 p12 (S6.c6 * dt)
  let tnow := tnow + S6.c6 * dt
  let a := func tnow qo
  let po := leapfrog_leapp dim p12 (S6.d6 * dt) a
  let q12 := leapfrog_leapq dim qo po (S6.c7 * dt)
  let tnow := tnow + S6.c7 * dt
  let a := func tnow q12
  let p12 := leapfrog_leapp dim po (S6.d7 * dt) a
  let qo := leapfrog_leapq dim q12 p12 (S6.c8 * dt)
  let tnow := tnow + S6.c8 * dt
  let po := p12
  (tnow, qo, po)

/-- The main macro-interval loop shared by all three schemes:
`for (ii=0; ii < (nt-1); ii++){ if (interrupted) { *err= -10; interrupted= 0; break; }
body; save; }`.  Arguments: the poll function, the interval state map, the save
function, the loop index, the remaining iteration count, the state.  Returns the
saved blocks, the err output, the flag value after the call, and the final state. -/
def integrateLoop {St : Type} (flag : ℕ → Bool) (body : St → St) (save : St → List ℝ) :
    ℕ → ℕ → St → List (List ℝ) × ℤ × Bool × St
  | i, 0, s => ([], 0, flag i, s)
  | i, n + 1, s =>
    if flag i then ([], -10, false, s)
    else
      let s' := body s
      let r := integrateLoop flag body save (i + 1) n s'
      (save s' :: r.1, r.2.1, r.2.2.1, r.2.2.2)

/-- The error-accumulation loop `for (ii=0; ii < dim; ii++)
err+= *(delta+ii) * *(delta+ii) / *(scale2+ii);` starting from accumulator e0. -/
def errAccum (dim : ℕ) (delta scale2 : List ℝ) (e0 : ℝ) : ℝ :=
  (List.range dim).foldl (fun e ii => e + delta.getD ii 0 * delta.getD ii 0 / scale2.getD ii 0) e0

/-- The scale2 array of the scheme-1/2 step searches:
`*(scale2+ii) = pow ( exp(atol) + exp(rtol) * *(scaling+ii), 2);`. -/
def estimate_scale2 (dim : ℕ) (atol rtol : ℝ) (scaling : List ℝ) : List ℝ :=
  (List.range dim).map fun ii => (Real.exp atol + Real.exp rtol * scaling.getD ii 0) ^ 2

/-- The shared `while ( err > 1. && init_dt / dt < _MAX_DT_REDUCE )` halving loop
of the three step-size searches, with _MAX_DT_REDUCE = 10000.  The C loop has no
iteration counter; the fuel argument is the embedding of an unbounded while loop,
and the theorems below show the guard is false on exit, so the fuel is never the
reason the loop stops.  errStep maps the halved candidate dt and the current
value of the err accumulator to the new err. -/
def stepSearchLoop (errStep : ℝ → ℝ → ℝ) (init_dt : ℝ) : ℕ → ℝ → ℝ → ℝ
  | 0, dt, _ => dt
  | fuel + 1, dt, err =>
    if 1 < err ∧ init_dt / dt < 10000 then
      stepSearchLoop errStep init_dt fuel (dt / 2) (errStep (dt / 2) err)
    else dt

/-- Fuel used to embed the while loops of the step searches. -/
def searchFuel : ℕ := 100

/-- One iteration of the leapfrog step-search body (source lines 535-556): reset
both trajectories to yo, take one step of dt and two of dt/2, and compute the
normalized error afresh (`err= 0.;` before accumulating). -/
def leapfrogErrStep (drift : ℝ → List ℝ → List ℝ) (kick : ℝ → ℝ → List ℝ → List ℝ)
    (dim : ℕ) (yo : List ℝ) (tnow : ℝ) (scale2 : List ℝ)
    (metric : ℕ → List ℝ → List ℝ → List ℝ) (dt _err : ℝ) : ℝ :=
  let y11 := drift (dt / 2) yo
  let y11 := kick dt (tnow + dt / 2) y11
  let y11 := drift (dt / 2) y11
  let y12 := drift (dt / 4) yo
  let y12 := kick (dt / 2) (tnow + dt / 4) y12
  let y12 := drift (dt / 2) y12
  let y12 := kick (dt / 2) (tnow + 3 * dt / 4) y12
  let y12 := drift (dt / 4) y12
  let delta := metric dim y11 y12
  Real.sqrt (errAccum dim delta scale2 0 / dim)

/-- leapfrog_estimate_step (source lines 505-565): set up scale2 from tol_scaling
on the given state, double the probe step, then run the halving loop from err = 2. -/
def leapfrog_estimate_step (drift : ℝ → List ℝ → List ℝ) (kick : ℝ → ℝ → List ℝ → List ℝ)
    (dim : ℕ) (yo : List ℝ) (dt : ℝ) (t : List ℝ) (rtol atol : ℝ)
    (tol_scaling : List ℝ → List ℝ) (metric : ℕ → List ℝ → List ℝ → List ℝ) : ℝ :=
  let tnow := t.getD 0 0
  let scale2 := estimate_scale2 dim atol rtol (tol_scaling yo)
  stepSearchLoop (leapfrogErrStep drift kick dim yo tnow scale2 metric) dt searchFuel (dt * 2) 2

/-- One iteration of the symplec4 step-search body (source lines 606-656): reset
to = *t and both trajectories to yo, take one symplec4 step of dt and two of dt/2,
and accumulate the normalized error ON TOP OF the incoming err value (the source
has no `err= 0.;` reset in this function, unlike its leapfrog and symplec6
counterparts). -/
def symplec4ErrStep (drift : ℝ → List ℝ → List ℝ) (kick : ℝ → ℝ → List ℝ → List ℝ)
    (dim : ℕ) (yo : List ℝ) (t0 : ℝ) (scale2 : List ℝ)
    (metric : ℕ → List ℝ → List ℝ → List ℝ) (dt err : ℝ) : ℝ :=
  let tnow := t0
  let y11 := drift (S4.c1 * dt) yo
  let tnow := tnow + S4.c1 * dt
  let y11 := kick (S4.d1 * dt) tnow y11
  let y11 := drift (S4.c2 * dt) y11
  let tnow := tnow + S4.c2 * dt
  let y11 := kick (S4.d2 * dt) tnow y11
  let y11 := drift (S4.c3 * dt) y11
  let tnow := tnow + S4.c3 * dt
  let y11 := kick (S4.d3 * dt) tnow y11
  let y11 := drift (S4.c4 * dt) y11
  let tnow := tnow - dt
  let dt2 := dt / 2
  let y12 := drift (S4.c1 * dt2) yo
  let tnow := tnow + S4.c1 * dt2
  let y12 := kick (S4.d1 * dt2) tnow y12
  let y12 := drift (S4.c2 * dt2) y12
  let tnow := tnow + S4.c2 * dt2
  let y12 := kick (S4.d2 * dt2) tnow y12
  let y12 := drift (S4.c3 * dt2) y12
  let tnow := tnow + S4.c3 * dt2
  let y12 := kick (S4.d3 * dt2) tnow y12
  let y12 := drift (S4.c41 * dt2) y12
  let tnow := tnow + S4.c41 * dt2
  let y12 := kick (S4.d1 * dt2) tnow y12
  let y12 := drift (S4.c2 * dt2) y12
  let tnow := tnow + S4.c2 * dt2
  let y12 := kick (S4.d2 * dt2) tnow y12
  let y12 := drift (S4.c3 * dt2) y12
  let tnow := tnow + S4.c3 * dt2
  let y12 := kick (S4.d3 * dt2) tnow y12
  let y12 := drift (S4.c4 * dt2) y12
  let delta := metric dim y11 y12
  Real.sqrt (errAccum dim delta scale2 err / dim)

/-- symplec4_estimate_step (source lines 567-665). -/
def symplec4_estimate_step (drift : ℝ → List ℝ → List ℝ) (kick : ℝ → ℝ → List ℝ → List ℝ)
    (dim : ℕ) (yo : List ℝ) (dt : ℝ) (t : List ℝ) (rtol atol : ℝ)
    (tol_scaling : List ℝ → List ℝ) (metric : ℕ → List ℝ → List ℝ → List ℝ) : ℝ :=
  let t0 := t.getD 0 0
  let scale2 := estimate_scale2 dim atol rtol (tol_scaling yo)
  stepSearchLoop (symplec4ErrStep drift kick dim yo t0 scale2 metric) dt searchFuel (dt * 2) 2

/-- The running maximum `max_val= fabs(*(v)); for (ii=1; ...) if larger ...`
used by symplec6_estimate_step. -/
def maxAbs (dim : ℕ) (v : List ℝ) : ℝ :=
  (List.range (dim - 1)).foldl (fun m ii => max m |v.getD (ii + 1) 0|) |v.getD 0 0|

/-- The log-sum-exp-stabilized scale of symplec6_estimate_step:
`c= fmax(atol, rtol*max_val); s= log(exp(atol-c)+exp(rtol*max_val-c))+c;`. -/
def lseScale (atol rtol mv : ℝ) : ℝ :=
  let c := max atol (rtol * mv)
  Real.log (Real.exp (atol - c) + Real.exp (rtol * mv - c)) + c

/-- The scale array of symplec6_estimate_step: the first dim entries hold the
position scale, the next dim entries the momentum scale. -/
def s6scale (dim : ℕ) (atol rtol : ℝ) (qo po : List ℝ) : List ℝ :=
  List.replicate dim (lseScale atol rtol (maxAbs dim qo)) ++
    List.replicate dim (lseScale atol rtol (maxAbs dim po))

/-- The error-accumulation loop of symplec6_estimate_step (source lines 869-874):
`err+= exp(2.*log(fabs(q11_i-q12_i))-2.*scale_i) + exp(2.*log(fabs(p11_i-p12_i))-2.*scale_{i+dim})`
starting from err = 0. -/
def s6errAccum (dim : ℕ) (q11 q12 p11 p12 scale : List ℝ) : ℝ :=
  (List.range dim).foldl
    (fun e ii =>
      e + Real.exp (2 * Real.log |q11.getD ii 0 - q12.getD ii 0| - 2 * scale.getD ii 0)
        + Real.exp (2 * Real.log |p11.getD ii 0 - p12.getD ii 0| - 2 * scale.getD (ii + dim) 0))
    0

/-- One iteration of the symplec6 step-search body (source lines 723-876): one
full symplec6 elementary step of dt ending in (q11, p11), two fused half steps of
dt/2 ending in (q12, p12), then the log-domain normalized error computed afresh
(`err= 0.;` before accumulating).  The running time returns to *t at the end of
every iteration, so each iteration starts from tnow = t0. -/
def symplec6ErrStep (func : ℝ → List ℝ → List ℝ) (dim : ℕ) (qo po : List ℝ)
    (t0 : ℝ) (scale : List ℝ) (dt _err : ℝ) : ℝ :=
  let tnow := t0
  let q12 := leapfrog_leapq dim qo po (S6.c1 * dt)
  let tnow := tnow + S6.c1 * dt
  let a := func tnow q12
  let p12 := leapfrog_leapp dim po (S6.d1 * dt) a
  let qtmp := leapfrog_leapq dim q12 p12 (S6.c2 * dt)
  let tnow := tnow + S6.c2 * dt
  let a := func tnow qtmp
  let ptmp := leapfrog_leapp dim p12 (S6.d2 * dt) a
  let q12 := leapfrog_leapq dim qtmp ptmp (S6.c3 * dt)
  let tnow := tnow + S6.c3 * dt
  let a := func tnow q12
  let p12 := leapfrog_leapp dim ptmp (S6.d3 * dt) a
  let qtmp := leapfrog_leapq dim q12 p12 (S6.c4 * dt)
  let tnow := tnow + S6.c4 * dt
  let a := func tnow qtmp
  let ptmp := leapfrog_leapp dim p12 (S6.d4 * dt) a
  let q12 := leapfrog_leapq dim qtmp ptmp (S6.c5 * dt)
  let tnow := tnow + S6.c5 * dt
  let a := func tnow q12
  let p12 := leapfrog_leapp dim ptmp (S6.d5 * dt) a
  let qtmp := leapfrog_leapq dim q12 p12 (S6.c6 * dt)
  let tnow := tnow + S6.c6 * dt
  let a := func tnow qtmp
  let ptmp := leapfrog_leapp dim p12 (S6.d6 * dt) a
  let q12 := leapfrog_leapq dim qtmp ptmp (S6.c7 * dt)
  let tnow := tnow + S6.c7 * dt
  let a := func tnow q12
  let p11 := leapfrog_leapp dim ptmp (S6.d7 * dt) a
  let q11 := leapfrog_leapq dim q12 p11 (S6.c8 * dt)
  let tnow := tnow + S6.c8 * dt
  let tnow := tnow - dt
  let q12 := leapfrog_leapq dim qo po (S6.c1 * dt / 2)
  let tnow := tnow + S6.c1 * dt / 2
  let a := func tnow q12
  let p12 := leapfrog_leapp dim po (S6.d1 * dt / 2) a
  let qtmp := leapfrog_leapq dim q12 p12 (S6.c2 * dt / 2)
  let tnow := tnow + S6.c2 * dt / 2
  let a := func tnow qtmp
  let ptmp := leapfrog_leapp dim p12 (S6.d2 * dt / 2) a
  let q12 := leapfrog_leapq dim qtmp ptmp (S6.c3 * dt / 2)
  let tnow := tnow + S6.c3 * dt / 2
  let a := func tnow q12
  let p12 := leapfrog_leapp dim ptmp (S6.d3 * dt / 2) a
  let qtmp := leapfrog_leapq dim q12 p12 (S6.c4 * dt / 2)
  let tnow := tnow + S6.c4 * dt / 2
  let a := func tnow qtmp
  let ptmp := leapfrog_leapp dim p12 (S6.d4 * dt / 2) a
  let q12 := leapfrog_leapq dim qtmp ptmp (S6.c5 * dt / 2)
  let tnow := tnow + S6.c5 * dt / 2
  let a := func tnow q12
  let p12 := leapfrog_leapp dim ptmp (S6.d5 * dt / 2) a
  let qtmp := leapfrog_leapq dim q12 p12 (S6.c6 * dt / 2)
  let tnow := tnow + S6.c6 * dt / 2
  let a := func tnow qtmp
  let ptmp := leapfrog_leapp dim p12 (S6.d6 * dt / 2) a
  let q12 := leapfrog_leapq dim qtmp ptmp (S6.c7 * dt / 2)
  let tnow := tnow + S6.c7 * dt / 2
  let a := func tnow q12
  let p12 := leapfrog_leapp dim ptmp (S6.d7 * dt / 2) a
  let qtmp := leapfrog_leapq dim q12 p12 ((S6.c1 + S6.c8) * dt / 2)
  let tnow := tnow + (S6.c1 + S6.c8) * dt / 2
  let a := func tnow qtmp
  let ptmp := leapfrog_leapp dim p12 (S6.d1 * dt / 2) a
  let q12 := leapfrog_leapq dim qtmp ptmp (S6.c2 * dt / 2)
  let tnow := tnow + S6.c2 * dt / 2
  let a := func tnow q12
  let p12 := leapfrog_leapp dim ptmp (S6.d2 * dt / 2) a
  let qtmp := leapfrog_leapq dim q12 p12 (S6.c3 * dt / 2)
  let tnow := tnow + S6.c3 * dt / 2
  let a := func tnow qtmp
  let ptmp := leapfrog_leapp dim p12 (S6.d3 * dt / 2) a
  let q12 := leapfrog_leapq dim qtmp ptmp (S6.c4 * dt / 2)
  let tnow := tnow + S6.c4 * dt / 2
  let a := func tnow q12
  let p12 := leapfrog_leapp dim ptmp (S6.d4 * dt / 2) a
  let qtmp := leapfrog_leapq dim q12 p12 (S6.c5 * dt / 2)
  let tnow := tnow + S6.c5 * dt / 2
  let a := func tnow qtmp
  let ptmp := leapfrog_leapp dim p12 (S6.d5 * dt / 2) a
  let q12 := leapfrog_leapq dim qtmp ptmp (S6.c6 * dt / 2)
  let tnow := tnow + S6.c6 * dt / 2
  let a := func tnow q12
  let p12 := leapfrog_leapp dim ptmp (S6.d6 * dt / 2) a
  let qtmp := leapfrog_leapq dim q12 p12 (S6.c7 * dt / 2)
  let tnow := tnow + S6.c7 * dt / 2
  let a := func tnow qtmp
  let ptmp := leapfrog_leapp dim p12 (S6.d7 * dt / 2) a
  let q12 := leapfrog_leapq dim qtmp ptmp (S6.c8 * dt / 2)
  let _tnow := tnow + S6.c8 * dt / 2
  let p12 := ptmp
  Real.sqrt (s6errAccum dim q11 q12 p11 p12 scale / 2 / dim)

/-- symplec6_estimate_step (source lines 667-890). -/
def symplec6_estimate_step (func : ℝ → List ℝ → List ℝ) (dim : ℕ) (qo po : List ℝ)
    (dt : ℝ) (t : List ℝ) (rtol atol : ℝ) : ℝ :=
  let t0 := t.getD 0 0
  let scale := s6scale dim atol rtol qo po
  stepSearchLoop (symplec6ErrStep func dim qo po t0 scale) dt searchFuel (dt * 2) 2

/-- Result of one integration call: the output buffer (nt blocks), the err
output, the cancellation-flag value after the call, and the contents of the
caller's yo buffer after the call. -/
structure SchemeResult where
  buf : List (List ℝ)
  err : ℤ
  flagOut : Bool
  yoOut : List ℝ

/-- The step size leapfrog actually uses (source lines 135-140): the supplied dt,
unless it is the sentinel -9999.99, in which case the estimate is run once, on
the (possibly Lz-initialized) state, with the first output spacing as probe. -/
def leapfrog_dt_used (drift : ℝ → List ℝ → List ℝ) (kick : ℝ → ℝ → List ℝ → List ℝ)
    (dim : ℕ) (yo1 : List ℝ) (dt : ℝ) (t : List ℝ) (rtol atol : ℝ)
    (tol_scaling : List ℝ → List ℝ) (metric : ℕ → List ℝ → List ℝ → List ℝ) : ℝ :=
  if dt = -9999.99 then
    leapfrog_estimate_step drift kick dim yo1 (t.getD 1 0 - t.getD 0 0) t rtol atol
      tol_scaling metric
  else dt

/-- `long ndt= (long) (init_dt/dt);` for leapfrog. -/
def leapfrog_ndt (drift : ℝ → List ℝ → List ℝ) (kick : ℝ → ℝ → List ℝ → List ℝ)
    (dim : ℕ) (yo1 : List ℝ) (dt : ℝ) (t : List ℝ) (rtol atol : ℝ)
    (tol_scaling : List ℝ → List ℝ) (metric : ℕ → List ℝ → List ℝ → List ℝ) : ℤ :=
  cTrunc ((t.getD 1 0 - t.getD 0 0) /
    leapfrog_dt_used drift kick dim yo1 dt t rtol atol tol_scaling metric)

/-- leapfrog (source lines 116-181): save the initial block untransformed, apply
the Lz initialization to yo, pick the step size, then run the macro-interval
loop with the leapfrog interval body. -/
def leapfrog (drift : ℝ → List ℝ → List ℝ) (kick : ℝ → ℝ → List ℝ → List ℝ)
    (dim : ℕ) (yo : List ℝ) (nt : ℕ) (dt : ℝ) (t : List ℝ) (rtol atol : ℝ)
    (tol_scaling : List ℝ → List ℝ) (metric : ℕ → List ℝ → List ℝ → List ℝ)
    (construct_Lz : Bool) (flag : ℕ → Bool) : SchemeResult :=
  let block0 := save_result dim yo false
  let yo1 := if construct_Lz then lzInit yo else yo
  let dt1 := leapfrog_dt_used drift kick dim yo1 dt t rtol atol tol_scaling metric
  let ndt := leapfrog_ndt drift kick dim yo1 dt t rtol atol tol_scaling metric
  let r := integrateLoop flag (leapfrogIntervalBody drift kick dt1 (ndt - 1).toNat)
    (fun s => save_result dim s.2 construct_Lz) 0 (nt - 1) (t.getD 0 0, yo1)
  ⟨block0 :: r.1, r.2.1, r.2.2.1, r.2.2.2.2⟩

/-- The step size symplec4 actually uses (source lines 240-245). -/
def symplec4_dt_used (drift : ℝ → List ℝ → List ℝ) (kick : ℝ → ℝ → List ℝ → List ℝ)
    (dim : ℕ) (yo1 : List ℝ) (dt : ℝ) (t : List ℝ) (rtol atol : ℝ)
    (tol_scaling : List ℝ → List ℝ) (metric : ℕ → List ℝ → List ℝ → List ℝ) : ℝ :=
  if dt = -9999.99 then
    symplec4_estimate_step drift kick dim yo1 (t.getD 1 0 - t.getD 0 0) t rtol atol
      tol_scaling metric
  else dt

/-- `long ndt= (long) (init_dt/dt);` for symplec4. -/
def symplec4_ndt (drift : ℝ → List ℝ → List ℝ) (kick : ℝ → ℝ → List ℝ → List ℝ)
    (dim : ℕ) (yo1 : List ℝ) (dt : ℝ) (t : List ℝ) (rtol atol : ℝ)
    (tol_scaling : List ℝ → List ℝ) (metric : ℕ → List ℝ → List ℝ → List ℝ) : ℤ :=
  cTrunc ((t.getD 1 0 - t.getD 0 0) /
    symplec4_dt_used drift kick dim yo1 dt t rtol atol tol_scaling metric)

/-- symplec4 (source lines 212-300), same outer structure as leapfrog with the
fourth-order interval body. -/
def symplec4 (drift : ℝ → List ℝ → List ℝ) (kick : ℝ → ℝ → List ℝ → List ℝ)
    (dim : ℕ) (yo : List ℝ) (nt : ℕ) (dt : ℝ) (t : List ℝ) (rtol atol : ℝ)
    (tol_scaling : List ℝ → List ℝ) (metric : ℕ → List ℝ → List ℝ → List ℝ)
    (construct_Lz : Bool) (flag : ℕ → Bool) : SchemeResult :=
  let block0 := save_result dim yo false
  let yo1 := if construct_Lz then lzInit yo else yo
  let dt1 := symplec4_dt_used drift kick dim yo1 dt t rtol atol tol_scaling metric
  let ndt := symplec4_ndt drift kick dim yo1 dt t rtol atol tol_scaling metric
  let r := integrateLoop flag (symplec4IntervalBody drift kick dt1 (ndt - 1).toNat)
    (fun s => save_result dim s.2 construct_Lz) 0 (nt - 1) (t.getD 0 0, yo1)
  ⟨block0 :: r.1, r.2.1, r.2.2.1, r.2.2.2.2⟩

/-- The step size symplec6 actually uses (source lines 366-371). -/
def symplec6_dt_used (func : ℝ → List ℝ → List ℝ) (dim : ℕ) (yo : List ℝ) (dt : ℝ)
    (t : List ℝ) (rtol atol : ℝ) : ℝ :=
  if dt = -9999.99 then
    symplec6_estimate_step func dim (yo.take dim) ((yo.drop dim).take dim)
      (t.getD 1 0 - t.getD 0 0) t rtol atol
  else dt

/-- `long ndt= (long) (init_dt/dt);` for symplec6. -/
def symplec6_ndt (func : ℝ → List ℝ → List ℝ) (dim : ℕ) (yo : List ℝ) (dt : ℝ)
    (t : List ℝ) (rtol atol : ℝ) : ℤ :=
  cTrunc ((t.getD 1 0 - t.getD 0 0) / symplec6_dt_used func dim yo dt t rtol atol)

/-- symplec6 (source lines 326-503): copy the caller's yo into fresh qo/po
scratch vectors, save the initial block, pick the step size, then run the
macro-interval loop on (to, qo, po).  The caller's yo is never written, so the
result's yoOut is yo itself. -/
def symplec6 (func : ℝ → List ℝ → List ℝ) (dim : ℕ) (yo : List ℝ) (nt : ℕ) (dt : ℝ)
    (t : List ℝ) (rtol atol : ℝ) (flag : ℕ → Bool) : SchemeResult :=
  let qo := yo.take dim
  let po := (yo.drop dim).take dim
  let block0 := save_qp dim qo po
  let dt1 := symplec6_dt_used func dim yo dt t rtol atol
  let ndt := symplec6_ndt func dim yo dt t rtol atol
  let r := integrateLoop flag (symplec6IntervalBody func dim dt1 (ndt - 1).toNat)
    (fun s => save_qp dim s.2.1 s.2.2) 0 (nt - 1) (t.getD 0 0, qo, po)
  ⟨block0 :: r.1, r.2.1, r.2.2.1, yo⟩

/-- The err value at the start of the (j+1)-st guard test of a step search: the
accumulator starts at 2 and is updated by errStep on the halved candidate. -/
def errSeq (errStep : ℝ → ℝ → ℝ) (init_dt : ℝ) : ℕ → ℝ
  | 0 => 2
  | j + 1 => errStep (2 * init_dt / 2 ^ (j + 1)) (errSeq errStep init_dt j)

/-- The while-loop guard of a step search after j halvings of the doubled probe. -/
def searchGuard (errStep : ℝ → ℝ → ℝ) (init_dt : ℝ) (j : ℕ) : Prop :=
  1 < errSeq errStep init_dt j ∧ init_dt / (2 * init_dt / 2 ^ j) < 10000

/-- The blocks an uninterrupted run of n macro intervals saves: one block per
interval, taken from the state after that interval. -/
def savedBlocks {St : Type} (body : St → St) (save : St → List ℝ) (n : ℕ) (s : St) :
    List (List ℝ) :=
  (List.range n).map fun j => save (body^[j + 1] s)

/-- A trivial drift kernel (identity) used as a concrete caller input. -/
def zDrift : ℝ → List ℝ → List ℝ := fun _ y => y

/-- A trivial kick kernel (identity) used as a concrete caller input. -/
def zKick : ℝ → ℝ → List ℝ → List ℝ := fun _ _ y => y

/-- A tolerance-scaling function returning the constant vector [0]. -/
def zScaling : List ℝ → List ℝ := fun _ => [0]

/-- A distance metric returning the constant difference vector [0]. -/
def zMetric : ℕ → List ℝ → List ℝ → List ℝ := fun _ _ _ => [0]

/-- A kick kernel adding dt^2 to every component, so that one step of dt and two
steps of dt/2 differ by dt^2/2 per component. -/
def cexKick : ℝ → ℝ → List ℝ → List ℝ := fun d _ y => y.map fun v => v + d * d

/-- A metric returning the first-component difference (dimension-1 use). -/
def cexMetric : ℕ → List ℝ → List ℝ → List ℝ := fun _ x y => [x.getD 0 0 - y.getD 0 0]

theorem savedBlocks_succ {St : Type} (body : St → St) (save : St → List ℝ) (n : ℕ)
    (s : St) :
    savedBlocks body save (n + 1) s = save (body s) :: savedBlocks body save n (body s) := by
  simp [savedBlocks, List.range_succ_eq_map, List.map_map, Function.comp,
    Function.iterate_succ_apply]

theorem integrateLoop_no_flag {St : Type} (flag : ℕ → Bool) (body : St → St)
    (save : St → List ℝ) (n : ℕ) :
    ∀ (i : ℕ) (s : St), (∀ j, i ≤ j → j < i + n → flag j = false) →
      integrateLoop flag body save i n s =
        (savedBlocks body save n s, 0, flag (i + n), body^[n] s) := by
  induction n with
  | zero =>
    intro i s _
    simp [integrateLoop, savedBlocks]
  | succ n ih =>
    intro i s h
    have h0 : flag i = false := h i le_rfl (by omega)
    have hrec := ih (i + 1) (body s) (fun j hj hj2 => h j (by omega) (by omega))
    simp only [integrateLoop, h0, Bool.false_eq_true, if_false, hrec, savedBlocks_succ]
    have hi : i + 1 + n = i + (n + 1) := by omega
    rw [hi, Function.iterate_succ_apply]

theorem integrateLoop_interrupt {St : Type} (flag : ℕ → Bool) (body : St → St)
    (save : St → List ℝ) (k : ℕ) :
    ∀ (n i : ℕ) (s : St), flag (i + k) = true →
      (∀ j, i ≤ j → j < i + k → flag j = false) → k < n →
      integrateLoop flag body save i n s =
        (savedBlocks body save k s, -10, false, body^[k] s) := by
  induction k with
  | zero =>
    intro n i s hk _ hlt
    match n, hlt with
    | n + 1, _ =>
      simp only [Nat.add_zero] at hk
      simp [integrateLoop, hk, savedBlocks]
  | succ k ih =>
    intro n i s hk hprev hlt
    match n, hlt with
    | n + 1, hlt =>
      have h0 : flag i = false := hprev i le_rfl (by omega)
      have hrec := ih n (i + 1) (body s) (by rw [show i + 1 + k = i + (k + 1) by omega]; exact hk)
        (fun j hj hj2 => hprev j (by omega) (by omega)) (by omega)
      simp only [integrateLoop, h0, Bool.false_eq_true, if_false, hrec, savedBlocks_succ]
      rw [Function.iterate_succ_apply]

theorem integrateLoop_map_save {St : Type} (flag : ℕ → Bool) (body : St → St)
    (save : St → List ℝ) (f : List ℝ → List ℝ) (n : ℕ) :
    ∀ (i : ℕ) (s : St),
      integrateLoop flag body (fun x => f (save x)) i n s =
        ((integrateLoop flag body save i n s).1.map f,
         (integrateLoop flag body save i n s).2) := by
  induction n with
  | zero => intro i s; simp [integrateLoop]
  | succ n ih =>
    intro i s
    by_cases hf : flag i = true
    · simp [integrateLoop, hf]
    · have h0 : flag i = false := by rwa [Bool.not_eq_true] at hf
      simp only [integrateLoop, h0, Bool.false_eq_true, if_false, ih (i + 1) (body s),
        List.map_cons]

theorem stepSearchLoop_succ (errStep : ℝ → ℝ → ℝ) (init_dt : ℝ) (fuel : ℕ) (dt e : ℝ) :
    stepSearchLoop errStep init_dt (fuel + 1) dt e =
      if 1 < e ∧ init_dt / dt < 10000 then
        stepSearchLoop errStep init_dt fuel (dt / 2) (errStep (dt / 2) e)
      else dt := rfl

theorem stepSearchLoop_stop (errStep : ℝ → ℝ → ℝ) (init_dt dt e : ℝ)
    (h : ¬(1 < e ∧ init_dt / dt < 10000)) (fuel : ℕ) :
    stepSearchLoop errStep init_dt fuel dt e = dt := by
  cases fuel with
  | zero => rfl
  | succ m => rw [stepSearchLoop_succ, if_neg h]

theorem searchRatio (init_dt : ℝ) (h : 0 < init_dt) (j : ℕ) :
    init_dt / (2 * init_dt / 2 ^ j) = 2 ^ j / 2 := by
  have h0 : init_dt ≠ 0 := ne_of_gt h
  have h2 : (2:ℝ) ^ j ≠ 0 := by positivity
  field_simp
  ring

theorem searchRatio_lt (j : ℕ) : ((2:ℝ) ^ j / 2 < 10000) ↔ j ≤ 14 := by
  rw [div_lt_iff₀ (by norm_num : (0:ℝ) < 2)]
  constructor
  · intro hj
    by_contra hc
    push_neg at hc
    have h15 : (2:ℝ) ^ 15 ≤ 2 ^ j := pow_le_pow_right₀ (by norm_num) hc
    norm_num at h15
    linarith
  · intro hj
    calc (2:ℝ) ^ j ≤ 2 ^ 14 := pow_le_pow_right₀ (by norm_num) hj
    _ < 10000 * 2 := by norm_num

theorem stepSearchLoop_spec (errStep : ℝ → ℝ → ℝ) (init_dt : ℝ) (h : 0 < init_dt) :
    ∀ (fuel j : ℕ), 16 ≤ fuel + j → j ≤ 15 →
      ∃ k, j ≤ k ∧ k ≤ 15 ∧
        stepSearchLoop errStep init_dt fuel (2 * init_dt / 2 ^ j) (errSeq errStep init_dt j)
          = 2 * init_dt / 2 ^ k ∧
        ¬ searchGuard errStep init_dt k ∧
        ∀ i, j ≤ i → i < k → searchGuard errStep init_dt i := by
  intro fuel
  induction fuel with
  | zero => intro j hf hj; omega
  | succ fuel ih =>
    intro j hf hj
    by_cases hg : searchGuard errStep init_dt j
    · have hj14 : j ≤ 14 := by
        by_contra hc
        have hj15 : j = 15 := by omega
        have hr := hg.2
        rw [hj15, searchRatio init_dt h, searchRatio_lt] at hr
        omega
      have hdt2 : 2 * init_dt / 2 ^ j / 2 = 2 * init_dt / 2 ^ (j + 1) := by
        rw [pow_succ, ← div_div]
      have hstep :
          stepSearchLoop errStep init_dt (fuel + 1) (2 * init_dt / 2 ^ j)
              (errSeq errStep init_dt j)
            = stepSearchLoop errStep init_dt fuel (2 * init_dt / 2 ^ (j + 1))
              (errSeq errStep init_dt (j + 1)) := by
        rw [stepSearchLoop_succ,
          if_pos (show 1 < errSeq errStep init_dt j ∧
            init_dt / (2 * init_dt / 2 ^ j) < 10000 from hg), hdt2]
        rfl
      obtain ⟨k, hk1, hk2, hk3, hk4, hk5⟩ := ih (j + 1) (by omega) (by omega)
      refine ⟨k, by omega, hk2, by rw [hstep]; exact hk3, hk4, ?_⟩
      intro i hi1 hi2
      rcases Nat.eq_or_lt_of_le hi1 with heq | hlt
      · rwa [← heq]
      · exact hk5 i hlt hi2
    · refine ⟨j, le_rfl, hj, stepSearchLoop_stop _ _ _ _ hg _, hg, ?_⟩
      intro i h1 h2
      omega

theorem stepSearchLoop_cap (errStep : ℝ → ℝ → ℝ) (init_dt : ℝ) (h : 0 < init_dt)
    (hpres : ∀ dt e, 1 < e → 1 < errStep dt e) :
    stepSearchLoop errStep init_dt searchFuel (2 * init_dt) 2 = 2 * init_dt / 2 ^ 15 := by
  have herr : ∀ j, 1 < errSeq errStep init_dt j := by
    intro j
    induction j with
    | zero => norm_num [errSeq]
    | succ j ih => exact hpres _ _ ih
  obtain ⟨k, _, hk15, hk3, hk4, _⟩ :=
    stepSearchLoop_spec errStep init_dt h searchFuel 0 (by norm_num [searchFuel]) (by norm_num)
  have hk : k = 15 := by
    rcases not_and_or.mp hk4 with hc | hc
    · exact absurd (herr k) hc
    · rw [searchRatio init_dt h, searchRatio_lt] at hc
      omega
  rw [hk] at hk3
  rw [← hk3]
  norm_num [errSeq]

theorem stepSearchLoop_le (errStep : ℝ → ℝ → ℝ) (init_dt : ℝ) :
    ∀ (fuel : ℕ) (dt e : ℝ), 0 < dt →
      stepSearchLoop errStep init_dt fuel dt e ≤ dt ∧
        0 < stepSearchLoop errStep init_dt fuel dt e := by
  intro fuel
  induction fuel with
  | zero => intro dt e h; exact ⟨le_rfl, h⟩
  | succ fuel ih =>
    intro dt e h
    rw [stepSearchLoop_succ]
    by_cases hg : 1 < e ∧ init_dt / dt < 10000
    · rw [if_pos hg]
      obtain ⟨h1, h2⟩ := ih (dt / 2) (errStep (dt / 2) e) (by linarith)
      exact ⟨le_trans h1 (by linarith), h2⟩
    · rw [if_neg hg]
      exact ⟨le_rfl, h⟩

theorem stepSearchLoop_mono (errA errB : ℝ → ℝ → ℝ) (init_dt : ℝ)
    (hA : ∀ d e e2, errA d e = errA d e2)
    (hAB : ∀ d e, errA d e ≤ errB d e) :
    ∀ (fuel : ℕ) (dt eA eB : ℝ), 0 < dt → eA ≤ eB →
      stepSearchLoop errB init_dt fuel dt eB ≤ stepSearchLoop errA init_dt fuel dt eA := by
  intro fuel
  induction fuel with
  | zero => intro dt eA eB hdt he; exact le_rfl
  | succ fuel ih =>
    intro dt eA eB hdt he
    by_cases hgA : 1 < eA ∧ init_dt / dt < 10000
    · have hgB : 1 < eB ∧ init_dt / dt < 10000 := ⟨lt_of_lt_of_le hgA.1 he, hgA.2⟩
      rw [stepSearchLoop_succ errB, if_pos hgB, stepSearchLoop_succ errA, if_pos hgA]
      apply ih (dt / 2) _ _ (by linarith)
      calc errA (dt / 2) eA = errA (dt / 2) eB := hA _ _ _
      _ ≤ errB (dt / 2) eB := hAB _ _
    · rw [stepSearchLoop_succ errA, if_neg hgA]
      by_cases hgB : 1 < eB ∧ init_dt / dt < 10000
      · rw [stepSearchLoop_succ errB, if_pos hgB]
        exact le_trans (stepSearchLoop_le errB init_dt fuel (dt / 2) _ (by linarith)).1
          (by linarith)
      · rw [stepSearchLoop_succ errB, if_neg hgB]

theorem leapfrog_leapq_getD (dim : ℕ) :
    ∀ (q p : List ℝ) (dt : ℝ) (i : ℕ), i < dim → i < q.length → i < p.length →
      (leapfrog_leapq dim q p dt).getD i 0 = q.getD i 0 + dt * p.getD i 0 := by
  induction dim with
  | zero => intro q p dt i h _ _; omega
  | succ d ih =>
    intro q p dt i h1 h2 h3
    cases q with
    | nil => simp at h2
    | cons x xs =>
      cases p with
      | nil => simp at h3
      | cons v vs =>
        cases i with
        | zero => simp [leapfrog_leapq]
        | succ i =>
          simpa [leapfrog_leapq] using
            ih xs vs dt i (by omega) (by simpa using h2) (by simpa using h3)

theorem leapfrog_leapp_getD (dim : ℕ) :
    ∀ (p : List ℝ) (dt : ℝ) (a : List ℝ) (i : ℕ), i < dim → i < p.length → i < a.length →
      (leapfrog_leapp dim p dt a).getD i 0 = p.getD i 0 + dt * a.getD i 0 := by
  induction dim with
  | zero => intro p dt a i h _ _; omega
  | succ d ih =>
    intro p dt a i h1 h2 h3
    cases p with
    | nil => simp at h2
    | cons x xs =>
      cases a with
      | nil => simp at h3
      | cons w ws =>
        cases i with
        | zero => simp [leapfrog_leapp]
        | succ i =>
          simpa [leapfrog_leapp] using
            ih xs dt ws i (by omega) (by simpa using h2) (by simpa using h3)

theorem leapfrog_leapq_length (dim : ℕ) :
    ∀ (q p : List ℝ) (dt : ℝ),
      (leapfrog_leapq dim q p dt).length = min dim (min q.length p.length) := by
  induction dim with
  | zero => intro q p dt; simp [leapfrog_leapq]
  | succ d ih =>
    intro q p dt
    cases q with
    | nil => simp [leapfrog_leapq]
    | cons x xs =>
      cases p with
      | nil => simp [leapfrog_leapq]
      | cons v vs =>
        simp [leapfrog_leapq, ih]
        omega

theorem leapfrog_leapp_length (dim : ℕ) :
    ∀ (p : List ℝ) (dt : ℝ) (a : List ℝ),
      (leapfrog_leapp dim p dt a).length = min dim (min p.length a.length) := by
  induction dim with
  | zero => intro p dt a; simp [leapfrog_leapp]
  | succ d ih =>
    intro p dt a
    cases p with
    | nil => simp [leapfrog_leapp]
    | cons x xs =>
      cases a with
      | nil => simp [leapfrog_leapp]
      | cons w ws =>
        simp [leapfrog_leapp, ih]
        omega

/-- Claim C7: for every dimension dim and input vectors of that length, the
position primitive returns q'[i] = q[i] + dt * p[i] and the momentum primitive
returns p'[i] = p[i] + dt * a[i] for all i < dim, and the only effect is the
returned output vector (whose length is exactly the written prefix). -/
theorem C7_step_primitives (dim : ℕ) (q p a : List ℝ) (dt : ℝ) (i : ℕ)
    (hdim : i < dim) (hq : i < q.length) (hp : i < p.length) (ha : i < a.length) :
    (leapfrog_leapq dim q p dt).getD i 0 = q.getD i 0 + dt * p.getD i 0 ∧
    (leapfrog_leapp dim p dt a).getD i 0 = p.getD i 0 + dt * a.getD i 0 ∧
    (leapfrog_leapq dim q p dt).length = min dim (min q.length p.length) ∧
    (leapfrog_leapp dim p dt a).length = min dim (min p.length a.length) :=
  ⟨leapfrog_leapq_getD dim q p dt i hdim hq hp,
   leapfrog_leapp_getD dim p dt a i hdim hp ha,
   leapfrog_leapq_length dim q p dt,
   leapfrog_leapp_length dim p dt a⟩

/-- Witness for C7 at dim = 1, q = [1], p = [2], a = [4], dt = 3, i = 0. -/
theorem C7_step_primitives_witness :
    (leapfrog_leapq 1 [1] [2] 3).getD 0 0 = ([(1:ℝ)].getD 0 0) + 3 * ([(2:ℝ)].getD 0 0) ∧
    (leapfrog_leapp 1 [2] 3 [4]).getD 0 0 = ([(2:ℝ)].getD 0 0) + 3 * ([(4:ℝ)].getD 0 0) ∧
    (leapfrog_leapq 1 [1] [2] 3).length = min 1 (min [(1:ℝ)].length [(2:ℝ)].length) ∧
    (leapfrog_leapp 1 [2] 3 [4]).length = min 1 (min [(2:ℝ)].length [(4:ℝ)].length) :=
  C7_step_primitives 1 [1] [2] [4] 3 0 (by norm_num) (by simp) (by simp) (by simp)

/-- Claim C10: for every scheme, the first output block is the unmodified initial
state, written before any integration step and before any cancellation check, and
the cylindrical transform is never applied to it even when construct_Lz is true;
this holds for every poll function, in particular for a run interrupted at the
first macro interval. -/
theorem C10_first_block (drift : ℝ → List ℝ → List ℝ) (kick : ℝ → ℝ → List ℝ → List ℝ)
    (func : ℝ → List ℝ → List ℝ) (dim : ℕ) (yo : List ℝ) (nt : ℕ) (dt : ℝ) (t : List ℝ)
    (rtol atol : ℝ) (tol_scaling : List ℝ → List ℝ) (metric : ℕ → List ℝ → List ℝ → List ℝ)
    (construct_Lz : Bool) (flag : ℕ → Bool) :
    (leapfrog drift kick dim yo nt dt t rtol atol tol_scaling metric construct_Lz
        flag).buf.getD 0 [] = yo.take dim ∧
    (symplec4 drift kick dim yo nt dt t rtol atol tol_scaling metric construct_Lz
        flag).buf.getD 0 [] = yo.take dim ∧
    (symplec6 func dim yo nt dt t rtol atol flag).buf.getD 0 [] = yo.take (2 * dim) := by
  refine ⟨?_, ?_, ?_⟩
  · simp [leapfrog, save_result]
  · simp [symplec4, save_result]
  · simp only [symplec6, save_qp, List.getD_cons_zero]
    rw [two_mul, List.take_add]
    simp [List.take_take]

theorem save_result_true (dim : ℕ) (x : List ℝ) :
    save_result dim x true = lzDiv (save_result dim x false) := rfl

/-- Claim C5: with construct_Lz enabled (schemes 1 and 2), the division of the
third component by the first touches only the blocks written to the output
buffer; the integrated state evolves exactly as in a construct_Lz = false run
started from the Lz-initialized state, block for block and including the final
state left in yo, for every poll function. -/
theorem C5_transform_only_at_save (drift : ℝ → List ℝ → List ℝ)
    (kick : ℝ → ℝ → List ℝ → List ℝ) (dim : ℕ) (yo : List ℝ) (nt : ℕ) (dt : ℝ)
    (t : List ℝ) (rtol atol : ℝ) (tol_scaling : List ℝ → List ℝ)
    (metric : ℕ → List ℝ → List ℝ → List ℝ) (flag : ℕ → Bool) :
    ((leapfrog drift kick dim yo nt dt t rtol atol tol_scaling metric true flag).buf =
        save_result dim yo false ::
          (leapfrog drift kick dim (lzInit yo) nt dt t rtol atol tol_scaling metric false
              flag).buf.tail.map lzDiv ∧
      (leapfrog drift kick dim yo nt dt t rtol atol tol_scaling metric true flag).err =
        (leapfrog drift kick dim (lzInit yo) nt dt t rtol atol tol_scaling metric false
            flag).err ∧
      (leapfrog drift kick dim yo nt dt t rtol atol tol_scaling metric true flag).flagOut =
        (leapfrog drift kick dim (lzInit yo) nt dt t rtol atol tol_scaling metric false
            flag).flagOut ∧
      (leapfrog drift kick dim yo nt dt t rtol atol tol_scaling metric true flag).yoOut =
        (leapfrog drift kick dim (lzInit yo) nt dt t rtol atol tol_scaling metric false
            flag).yoOut) ∧
    ((symplec4 drift kick dim yo nt dt t rtol atol tol_scaling metric true flag).buf =
        save_result dim yo false ::
          (symplec4 drift kick dim (lzInit yo) nt dt t rtol atol tol_scaling metric false
              flag).buf.tail.map lzDiv ∧
      (symplec4 drift kick dim yo nt dt t rtol atol tol_scaling metric true flag).err =
        (symplec4 drift kick dim (lzInit yo) nt dt t rtol atol tol_scaling metric false
            flag).err ∧
      (symplec4 drift kick dim yo nt dt t rtol atol tol_scaling metric true flag).flagOut =
        (symplec4 drift kick dim (lzInit yo) nt dt t rtol atol tol_scaling metric false
            flag).flagOut ∧
      (symplec4 drift kick dim yo nt dt t rtol atol tol_scaling metric true flag).yoOut =
        (symplec4 drift kick dim (lzInit yo) nt dt t rtol atol tol_scaling metric false
            flag).yoOut) := by
  constructor
  · simp only [leapfrog, if_true, if_false]
    rw [show (fun s : ℝ × List ℝ => save_result dim s.2 true) =
        fun s : ℝ × List ℝ => lzDiv (save_result dim s.2 false) from rfl]
    rw [integrateLoop_map_save]
    simp
  · simp only [symplec4, if_true, if_false]
    rw [show (fun s : ℝ × List ℝ => save_result dim s.2 true) =
        fun s : ℝ × List ℝ => lzDiv (save_result dim s.2 false) from rfl]
    rw [integrateLoop_map_save]
    simp

theorem savedBlocks_take {St : Type} (body : St → St) (save : St → List ℝ) (k n : ℕ)
    (hk : k ≤ n) (s : St) :
    (savedBlocks body save n s).take k = savedBlocks body save k s := by
  simp [savedBlocks, ← List.map_take, List.take_range, Nat.min_eq_left hk]

theorem savedBlocks_length {St : Type} (body : St → St) (save : St → List ℝ) (n : ℕ)
    (s : St) : (savedBlocks body save n s).length = n := by
  simp [savedBlocks]

theorem savedBlocks_getD {St : Type} (body : St → St) (save : St → List ℝ) (n k : ℕ)
    (hk : k < n) (s : St) :
    (savedBlocks body save n s).getD k [] = save (body^[k + 1] s) := by
  simp [savedBlocks, List.getD_eq_getElem?_getD, List.getElem?_map, List.getElem?_range hk]

/-- Claim C9: symplec6 copies the caller's initial-state vector into scratch
buffers and never writes it back, so yo is unchanged on return; leapfrog and
symplec4 integrate the caller's buffer in place, so on an uninterrupted return
yo holds the state after nt-1 macro intervals started from the initial state
with, when construct_Lz is true, its third component multiplied by its first
(lzInit) before integration began. -/
theorem C9_yo_in_place (drift : ℝ → List ℝ → List ℝ) (kick : ℝ → ℝ → List ℝ → List ℝ)
    (func : ℝ → List ℝ → List ℝ) (dim : ℕ) (yo : List ℝ) (nt : ℕ) (dt : ℝ) (t : List ℝ)
    (rtol atol : ℝ) (tol_scaling : List ℝ → List ℝ) (metric : ℕ → List ℝ → List ℝ → List ℝ)
    (construct_Lz : Bool) (flag : ℕ → Bool) (hflag : ∀ i, flag i = false) :
    (symplec6 func dim yo nt dt t rtol atol flag).yoOut = yo ∧
    lzInit yo = yo.set 2 (yo.getD 2 0 * yo.getD 0 0) ∧
    (leapfrog drift kick dim yo nt dt t rtol atol tol_scaling metric construct_Lz
        flag).yoOut =
      ((leapfrogIntervalBody drift kick
          (leapfrog_dt_used drift kick dim (if construct_Lz then lzInit yo else yo) dt t
            rtol atol tol_scaling metric)
          ((leapfrog_ndt drift kick dim (if construct_Lz then lzInit yo else yo) dt t
            rtol atol tol_scaling metric - 1).toNat))^[nt - 1]
        (t.getD 0 0, if construct_Lz then lzInit yo else yo)).2 ∧
    (symplec4 drift kick dim yo nt dt t rtol atol tol_scaling metric construct_Lz
        flag).yoOut =
      ((symplec4IntervalBody drift kick
          (symplec4_dt_used drift kick dim (if construct_Lz then lzInit yo else yo) dt t
            rtol atol tol_scaling metric)
          ((symplec4_ndt drift kick dim (if construct_Lz then lzInit yo else yo) dt t
            rtol atol tol_scaling metric - 1).toNat))^[nt - 1]
        (t.getD 0 0, if construct_Lz then lzInit yo else yo)).2 := by
  have hfl : ∀ (i j : ℕ), i ≤ j → j < i + (nt - 1) → flag j = false := fun _ j _ _ => hflag j
  refine ⟨by simp [symplec6], rfl, ?_, ?_⟩
  · simp only [leapfrog, integrateLoop_no_flag flag _ _ (nt - 1) 0 _ (hfl 0)]
  · simp only [symplec4, integrateLoop_no_flag flag _ _ (nt - 1) 0 _ (hfl 0)]

/-- Witness for C9 with the all-false poll function, nt = 2. -/
theorem C9_yo_in_place_witness :
    (symplec6 (fun _ q => q) 1 [1, 2] 2 1 [0, 1] 0 0 (fun _ => false)).yoOut = [1, 2] ∧
    lzInit [1, 2] = [(1:ℝ), 2].set 2 ([(1:ℝ), 2].getD 2 0 * [(1:ℝ), 2].getD 0 0) ∧
    (leapfrog (fun _ y => y) (fun _ _ y => y) 1 [1, 2] 2 1 [0, 1] 0 0 (fun _ => [0])
        (fun _ _ _ => [0]) false (fun _ => false)).yoOut =
      ((leapfrogIntervalBody (fun _ y => y) (fun _ _ y => y)
          (leapfrog_dt_used (fun _ y => y) (fun _ _ y => y) 1
            (if false then lzInit [1, 2] else [1, 2]) 1 [0, 1] 0 0 (fun _ => [0])
            (fun _ _ _ => [0]))
          ((leapfrog_ndt (fun _ y => y) (fun _ _ y => y) 1
            (if false then lzInit [1, 2] else [1, 2]) 1 [0, 1] 0 0 (fun _ => [0])
            (fun _ _ _ => [0]) - 1).toNat))^[2 - 1]
        ([(0:ℝ), 1].getD 0 0, if false then lzInit [1, 2] else [1, 2])).2 ∧
    (symplec4 (fun _ y => y) (fun _ _ y => y) 1 [1, 2] 2 1 [0, 1] 0 0 (fun _ => [0])
        (fun _ _ _ => [0]) false (fun _ => false)).yoOut =
      ((symplec4IntervalBody (fun _ y => y) (fun _ _ y => y)
          (symplec4_dt_used (fun _ y => y) (fun _ _ y => y) 1
            (if false then lzInit [1, 2] else [1, 2]) 1 [0, 1] 0 0 (fun _ => [0])
            (fun _ _ _ => [0]))
          ((symplec4_ndt (fun _ y => y) (fun _ _ y => y) 1
            (if false then lzInit [1, 2] else [1, 2]) 1 [0, 1] 0 0 (fun _ => [0])
            (fun _ _ _ => [0]) - 1).toNat))^[2 - 1]
        ([(0:ℝ), 1].getD 0 0, if false then lzInit [1, 2] else [1, 2])).2 :=
  C9_yo_in_place (fun _ y => y) (fun _ _ y => y) (fun _ q => q) 1 [1, 2] 2 1 [0, 1] 0 0
    (fun _ => [0]) (fun _ _ _ => [0]) false (fun _ => false) (fun _ => rfl)

/-- Claim C1: for every scheme, if the cancellation flag is first observed at the
start of macro interval k (k within the nt-1 intervals), the call returns err
-10, the flag is reset to false, no further intervals are run, and the buffer
holds exactly the first k+1 blocks of the uninterrupted run with the same
inputs. -/
theorem C1_cancellation (drift : ℝ → List ℝ → List ℝ) (kick : ℝ → ℝ → List ℝ → List ℝ)
    (func : ℝ → List ℝ → List ℝ) (dim dim6 : ℕ) (yo yo6 : List ℝ) (nt : ℕ) (dt : ℝ)
    (t : List ℝ) (rtol atol : ℝ) (tol_scaling : List ℝ → List ℝ)
    (metric : ℕ → List ℝ → List ℝ → List ℝ) (construct_Lz : Bool) (flag : ℕ → Bool)
    (k : ℕ) (hk : flag k = true) (hprev : ∀ j, j < k → flag j = false) (hlt : k < nt - 1) :
    ((leapfrog drift kick dim yo nt dt t rtol atol tol_scaling metric construct_Lz
        flag).err = -10 ∧
      (leapfrog drift kick dim yo nt dt t rtol atol tol_scaling metric construct_Lz
        flag).flagOut = false ∧
      (leapfrog drift kick dim yo nt dt t rtol atol tol_scaling metric construct_Lz
        flag).buf =
        (leapfrog drift kick dim yo nt dt t rtol atol tol_scaling metric construct_Lz
          (fun _ => false)).buf.take (k + 1) ∧
      (leapfrog drift kick dim yo nt dt t rtol atol tol_scaling metric construct_Lz
        flag).buf.length = k + 1) ∧
    ((symplec4 drift kick dim yo nt dt t rtol atol tol_scaling metric construct_Lz
        flag).err = -10 ∧
      (symplec4 drift kick dim yo nt dt t rtol atol tol_scaling metric construct_Lz
        flag).flagOut = false ∧
      (symplec4 drift kick dim yo nt dt t rtol atol tol_scaling metric construct_Lz
        flag).buf =
        (symplec4 drift kick dim yo nt dt t rtol atol tol_scaling metric construct_Lz
          (fun _ => false)).buf.take (k + 1) ∧
      (symplec4 drift kick dim yo nt dt t rtol atol tol_scaling metric construct_Lz
        flag).buf.length = k + 1) ∧
    ((symplec6 func dim6 yo6 nt dt t rtol atol flag).err = -10 ∧
      (symplec6 func dim6 yo6 nt dt t rtol atol flag).flagOut = false ∧
      (symplec6 func dim6 yo6 nt dt t rtol atol flag).buf =
        (symplec6 func dim6 yo6 nt dt t rtol atol (fun _ => false)).buf.take (k + 1) ∧
      (symplec6 func dim6 yo6 nt dt t rtol atol flag).buf.length = k + 1) := by
  have hint : ∀ {St : Type} (body : St → St) (save : St → List ℝ) (s : St),
      integrateLoop flag body save 0 (nt - 1) s =
        (savedBlocks body save k s, -10, false, body^[k] s) := by
    intro St body save s
    exact integrateLoop_interrupt flag body save k (nt - 1) 0 s (by simpa using hk)
      (fun j _ hj => hprev j (by omega)) hlt
  have hfull : ∀ {St : Type} (body : St → St) (save : St → List ℝ) (s : St),
      integrateLoop (fun _ => false) body save 0 (nt - 1) s =
        (savedBlocks body save (nt - 1) s, 0, false, body^[nt - 1] s) :=
    fun body save s => integrateLoop_no_flag _ body save (nt - 1) 0 s (fun _ _ _ => rfl)
  have htake : ∀ {St : Type} (body : St → St) (save : St → List ℝ) (s : St),
      (savedBlocks body save (nt - 1) s).take k = savedBlocks body save k s :=
    fun body save s => savedBlocks_take body save k (nt - 1) (by omega) s
  refine ⟨?_, ?_, ?_⟩
  · simp only [leapfrog, hint, hfull]
    simp [htake, savedBlocks_length]
  · simp only [symplec4, hint, hfull]
    simp [htake, savedBlocks_length]
  · simp only [symplec6, hint, hfull]
    simp [htake, savedBlocks_length]

/-- Witness for C1: nt = 3, flag observed at the start of interval k = 1. -/
theorem C1_cancellation_witness :
    ((leapfrog (fun _ y => y) (fun _ _ y => y) 1 [1] 3 1 [0, 1, 2] 0 0 (fun _ => [0])
        (fun _ _ _ => [0]) false (fun i => decide (i = 1))).err = -10 ∧
      (leapfrog (fun _ y => y) (fun _ _ y => y) 1 [1] 3 1 [0, 1, 2] 0 0 (fun _ => [0])
        (fun _ _ _ => [0]) false (fun i => decide (i = 1))).flagOut = false ∧
      (leapfrog (fun _ y => y) (fun _ _ y => y) 1 [1] 3 1 [0, 1, 2] 0 0 (fun _ => [0])
        (fun _ _ _ => [0]) false (fun i => decide (i = 1))).buf =
        (leapfrog (fun _ y => y) (fun _ _ y => y) 1 [1] 3 1 [0, 1, 2] 0 0 (fun _ => [0])
          (fun _ _ _ => [0]) false (fun _ => false)).buf.take (1 + 1) ∧
      (leapfrog (fun _ y => y) (fun _ _ y => y) 1 [1] 3 1 [0, 1, 2] 0 0 (fun _ => [0])
        (fun _ _ _ => [0]) false (fun i => decide (i = 1))).buf.length = 1 + 1) ∧
    ((symplec4 (fun _ y => y) (fun _ _ y => y) 1 [1] 3 1 [0, 1, 2] 0 0 (fun _ => [0])
        (fun _ _ _ => [0]) false (fun i => decide (i = 1))).err = -10 ∧
      (symplec4 (fun _ y => y) (fun _ _ y => y) 1 [1] 3 1 [0, 1, 2] 0 0 (fun _ => [0])
        (fun _ _ _ => [0]) false (fun i => decide (i = 1))).flagOut = false ∧
      (symplec4 (fun _ y => y) (fun _ _ y => y) 1 [1] 3 1 [0, 1, 2] 0 0 (fun _ => [0])
        (fun _ _ _ => [0]) false (fun i => decide (i = 1))).buf =
        (symplec4 (fun _ y => y) (fun _ _ y => y) 1 [1] 3 1 [0, 1, 2] 0 0 (fun _ => [0])
          (fun _ _ _ => [0]) false (fun _ => false)).buf.take (1 + 1) ∧
      (symplec4 (fun _ y => y) (fun _ _ y => y) 1 [1] 3 1 [0, 1, 2] 0 0 (fun _ => [0])
        (fun _ _ _ => [0]) false (fun i => decide (i = 1))).buf.length = 1 + 1) ∧
    ((symplec6 (fun _ q => q) 1 [1, 2] 3 1 [0, 1, 2] 0 0 (fun i => decide (i = 1))).err
        = -10 ∧
      (symplec6 (fun _ q => q) 1 [1, 2] 3 1 [0, 1, 2] 0 0
        (fun i => decide (i = 1))).flagOut = false ∧
      (symplec6 (fun _ q => q) 1 [1, 2] 3 1 [0, 1, 2] 0 0 (fun i => decide (i = 1))).buf =
        (symplec6 (fun _ q => q) 1 [1, 2] 3 1 [0, 1, 2] 0 0 (fun _ => false)).buf.take
          (1 + 1) ∧
      (symplec6 (fun _ q => q) 1 [1, 2] 3 1 [0, 1, 2] 0 0
        (fun i => decide (i = 1))).buf.length = 1 + 1) :=
  C1_cancellation (fun _ y => y) (fun _ _ y => y) (fun _ q => q) 1 1 [1] [1, 2] 3 1
    [0, 1, 2] 0 0 (fun _ => [0]) (fun _ _ _ => [0]) false (fun i => decide (i = 1)) 1
    (by decide) (fun j hj => by interval_cases j; decide) (by decide)

theorem leapfrogInnerOps_eq (dt : ℝ) :
    ∀ (m : ℕ) (tnow : ℝ),
      leapfrogInnerOps dt m tnow =
        (((List.range m).map fun j : ℕ =>
            [SymOp.kick dt (tnow + (j : ℝ) * dt + dt / 2), SymOp.drift dt]).flatten,
         tnow + (m : ℝ) * dt) := by
  intro m
  induction m with
  | zero => intro tnow; simp [leapfrogInnerOps]
  | succ m ih =>
    intro tnow
    rw [show leapfrogInnerOps dt (m + 1) tnow =
        (SymOp.kick dt (tnow + dt / 2) :: SymOp.drift dt ::
          (leapfrogInnerOps dt m (tnow + dt)).1,
         (leapfrogInnerOps dt m (tnow + dt)).2) from rfl, ih (tnow + dt)]
    simp only [List.range_succ_eq_map, List.map_cons, List.flatten_cons, List.map_map,
      List.cons_append, List.nil_append, Prod.mk.injEq]
    refine ⟨?_, by push_cast; ring⟩
    congr 1
    · norm_num
    congr 1
    congr 1
    apply List.map_congr_left
    intro j hj
    simp only [Function.comp_apply]
    have harg : tnow + dt + (j : ℝ) * dt + dt / 2 = tnow + ((j : ℕ).succ : ℝ) * dt + dt / 2 := by
      push_cast
      ring
    rw [harg]

theorem kickCount_cons_kick (d tm : ℝ) (l : List SymOp) :
    kickCount (SymOp.kick d tm :: l) = kickCount l + 1 := by
  simp [kickCount, List.countP_cons]

theorem kickCount_cons_drift (d : ℝ) (l : List SymOp) :
    kickCount (SymOp.drift d :: l) = kickCount l := by
  simp [kickCount, List.countP_cons]

theorem kickCount_append (l1 l2 : List SymOp) :
    kickCount (l1 ++ l2) = kickCount l1 + kickCount l2 := by
  simp [kickCount]

theorem driftTotal_cons_kick (d tm : ℝ) (l : List SymOp) :
    driftTotal (SymOp.kick d tm :: l) = driftTotal l := by
  simp [driftTotal]

theorem driftTotal_cons_drift (d : ℝ) (l : List SymOp) :
    driftTotal (SymOp.drift d :: l) = d + driftTotal l := by
  simp [driftTotal]

theorem driftTotal_append (l1 l2 : List SymOp) :
    driftTotal (l1 ++ l2) = driftTotal l1 + driftTotal l2 := by
  simp [driftTotal]

theorem kickCount_innerOps (dt : ℝ) :
    ∀ (m : ℕ) (tnow : ℝ), kickCount (leapfrogInnerOps dt m tnow).1 = m := by
  intro m
  induction m with
  | zero => intro tnow; rfl
  | succ m ih =>
    intro tnow
    show kickCount (SymOp.kick dt (tnow + dt / 2) :: SymOp.drift dt ::
      (leapfrogInnerOps dt m (tnow + dt)).1) = m + 1
    rw [kickCount_cons_kick, kickCount_cons_drift, ih (tnow + dt)]

theorem driftTotal_innerOps (dt : ℝ) :
    ∀ (m : ℕ) (tnow : ℝ), driftTotal (leapfrogInnerOps dt m tnow).1 = m * dt := by
  intro m
  induction m with
  | zero => intro tnow; simp [leapfrogInnerOps, driftTotal]
  | succ m ih =>
    intro tnow
    show driftTotal (SymOp.kick dt (tnow + dt / 2) :: SymOp.drift dt ::
      (leapfrogInnerOps dt m (tnow + dt)).1) = (m + 1 : ℕ) * dt
    rw [driftTotal_cons_kick, driftTotal_cons_drift, ih (tnow + dt)]
    push_cast
    ring

theorem kickCount_intervalOps (dt : ℝ) (m : ℕ) (tnow : ℝ) :
    kickCount (leapfrogIntervalOps dt m tnow).1 = m + 1 := by
  show kickCount (SymOp.drift (dt / 2) :: ((leapfrogInnerOps dt m tnow).1 ++
    [SymOp.kick dt ((leapfrogInnerOps dt m tnow).2 + dt / 2), SymOp.drift (dt / 2)])) = m + 1
  rw [kickCount_cons_drift, kickCount_append, kickCount_innerOps,
    kickCount_cons_kick, kickCount_cons_drift]
  rfl

theorem driftTotal_intervalOps (dt : ℝ) (m : ℕ) (tnow : ℝ) :
    driftTotal (leapfrogIntervalOps dt m tnow).1 = (m + 1) * dt := by
  show driftTotal (SymOp.drift (dt / 2) :: ((leapfrogInnerOps dt m tnow).1 ++
    [SymOp.kick dt ((leapfrogInnerOps dt m tnow).2 + dt / 2), SymOp.drift (dt / 2)]))
    = (m + 1) * dt
  rw [driftTotal_cons_drift, driftTotal_append, driftTotal_innerOps,
    driftTotal_cons_kick, driftTotal_cons_drift]
  show dt / 2 + ((m : ℝ) * dt + (dt / 2 + 0)) = _
  ring

theorem leapfrogIntervalOps_snd (dt : ℝ) (m : ℕ) (tnow : ℝ) :
    (leapfrogIntervalOps dt m tnow).2 = tnow + (m + 1) * dt := by
  show (leapfrogInnerOps dt m tnow).2 + dt = tnow + (m + 1) * dt
  rw [leapfrogInnerOps_eq]
  push_cast
  ring

/-- Claim C6: per macro output interval, leapfrog with ndt = floor(interval/dt)
sub-steps performs exactly one half drift of dt/2, then ndt-1 repetitions of a
kick of dt at the sub-step midpoint followed by a full drift of dt, then one
final kick of dt at the last midpoint and a half drift of dt/2; that is ndt kicks
and a total drift time of ndt*dt, the interval advances the time by ndt*dt, and
the uninterrupted run writes the state to the output buffer after each interval. -/
theorem C6_leapfrog_interval (drift : ℝ → List ℝ → List ℝ) (kick : ℝ → ℝ → List ℝ → List ℝ)
    (dim : ℕ) (yo : List ℝ) (nt : ℕ) (dt : ℝ) (t : List ℝ) (rtol atol : ℝ)
    (tol_scaling : List ℝ → List ℝ) (metric : ℕ → List ℝ → List ℝ → List ℝ)
    (construct_Lz : Bool) (n k : ℕ) (tnow : ℝ)
    (hdt : dt ≠ -9999.99)
    (hn : cTrunc ((t.getD 1 0 - t.getD 0 0) / dt) = (n : ℤ))
    (hn1 : 1 ≤ n) (hk : k < nt - 1) :
    (leapfrogIntervalOps dt (n - 1) tnow).1 =
      SymOp.drift (dt / 2) ::
        ((((List.range (n - 1)).map fun j : ℕ =>
            [SymOp.kick dt (tnow + (j : ℝ) * dt + dt / 2), SymOp.drift dt]).flatten) ++
          [SymOp.kick dt (tnow + ((n : ℝ) - 1) * dt + dt / 2), SymOp.drift (dt / 2)]) ∧
    kickCount (leapfrogIntervalOps dt (n - 1) tnow).1 = n ∧
    driftTotal (leapfrogIntervalOps dt (n - 1) tnow).1 = n * dt ∧
    (leapfrogIntervalOps dt (n - 1) tnow).2 = tnow + n * dt ∧
    (leapfrog drift kick dim yo nt dt t rtol atol tol_scaling metric construct_Lz
        (fun _ => false)).buf.getD (k + 1) [] =
      save_result dim
        ((leapfrogIntervalBody drift kick dt (n - 1))^[k + 1]
          (t.getD 0 0, if construct_Lz then lzInit yo else yo)).2 construct_Lz := by
  have hcast : ((n - 1 : ℕ) : ℝ) = (n : ℝ) - 1 := by
    push_cast [hn1]
    ring
  have hsucc : (n - 1) + 1 = n := by omega
  refine ⟨?_, ?_, ?_, ?_, ?_⟩
  · simp only [leapfrogIntervalOps, leapfrogInnerOps_eq, hcast]
  · rw [kickCount_intervalOps]
    omega
  · rw [driftTotal_intervalOps, hcast]
    ring
  · rw [leapfrogIntervalOps_snd]
    rw [show ((n - 1 : ℕ) : ℝ) + 1 = (n : ℝ) by rw [hcast]; ring]
  · have hdtu : leapfrog_dt_used drift kick dim (if construct_Lz then lzInit yo else yo)
        dt t rtol atol tol_scaling metric = dt := if_neg hdt
    have hndt : (leapfrog_ndt drift kick dim (if construct_Lz then lzInit yo else yo)
        dt t rtol atol tol_scaling metric - 1).toNat = n - 1 := by
      rw [leapfrog_ndt, hdtu, hn]
      omega
    simp only [leapfrog, hdtu, hndt,
      integrateLoop_no_flag (fun _ => false) _ _ (nt - 1) 0 _ (fun _ _ _ => rfl)]
    simp only [List.getD_cons_succ]
    rw [savedBlocks_getD _ _ (nt - 1) k hk]

/-- Witness for C6 at dt = 1, t = [0, 1], n = 1 (so ndt = 1), nt = 2, k = 0. -/
theorem C6_leapfrog_interval_witness :
    (leapfrogIntervalOps 1 (1 - 1) 0).1 =
      SymOp.drift (1 / 2) ::
        ((((List.range (1 - 1)).map fun j : ℕ =>
            [SymOp.kick 1 (0 + (j : ℝ) * 1 + 1 / 2), SymOp.drift 1]).flatten) ++
          [SymOp.kick 1 (0 + (((1 : ℕ) : ℝ) - 1) * 1 + 1 / 2), SymOp.drift (1 / 2)]) ∧
    kickCount (leapfrogIntervalOps 1 (1 - 1) 0).1 = 1 ∧
    driftTotal (leapfrogIntervalOps 1 (1 - 1) 0).1 = ((1 : ℕ) : ℝ) * 1 ∧
    (leapfrogIntervalOps 1 (1 - 1) 0).2 = 0 + ((1 : ℕ) : ℝ) * 1 ∧
    (leapfrog (fun _ y => y) (fun _ _ y => y) 1 [1] 2 1 [0, 1] 0 0 (fun _ => [0])
        (fun _ _ _ => [0]) false (fun _ => false)).buf.getD (0 + 1) [] =
      save_result 1
        ((leapfrogIntervalBody (fun _ y => y) (fun _ _ y => y) 1 (1 - 1))^[0 + 1]
          ([(0 : ℝ), 1].getD 0 0, if false then lzInit [1] else [1])).2 false :=
  C6_leapfrog_interval (fun _ y => y) (fun _ _ y => y) 1 [1] 2 1 [0, 1] 0 0 (fun _ => [0])
    (fun _ _ _ => [0]) false 1 0 0 (by norm_num)
    (by norm_num [cTrunc]) (by norm_num) (by norm_num)

theorem estimate_scale2_getD (dim : ℕ) (atol rtol : ℝ) (scaling : List ℝ) (i : ℕ)
    (hi : i < dim) :
    (estimate_scale2 dim atol rtol scaling).getD i 0
      = (Real.exp atol + Real.exp rtol * scaling.getD i 0) ^ 2 := by
  simp [estimate_scale2, List.getD_eq_getElem?_getD, List.getElem?_map, List.getElem?_range hi]

/-- Claim C2 counterexample: at atol = rtol = 0 and scaling value 0 (dim 1,
component 0) the squared tolerance actually stored in scale2 is
(exp 0 + exp 0 * 0)^2 = 1, while the claimed (atol + rtol*scaling)^2 is 0. -/
theorem C2_counterexample :
    (estimate_scale2 1 0 0 [0]).getD 0 0 = 1 ∧ ((0 : ℝ) + 0 * 0) ^ 2 = 0 ∧ (1 : ℝ) ≠ 0 := by
  refine ⟨?_, by norm_num, by norm_num⟩
  rw [estimate_scale2_getD 1 0 0 [0] 0 (by norm_num)]
  simp [Real.exp_zero]

/-- Claim C2 (amended): in the step searches of schemes 1 and 2 the combined
per-component tolerance is exp(atol) + exp(rtol) * scaling_i — the tolerances
enter through exp, i.e. they are supplied in log space — squared into scale2,
where scaling is produced by the caller-supplied tol_scaling on the state handed
to the search; both searches normalize their local error with exactly this
scale2 array. -/
theorem C2_log_space_tolerance (drift : ℝ → List ℝ → List ℝ)
    (kick : ℝ → ℝ → List ℝ → List ℝ) (dim : ℕ) (yo : List ℝ) (dtP : ℝ) (t : List ℝ)
    (rtol atol : ℝ) (tol_scaling : List ℝ → List ℝ)
    (metric : ℕ → List ℝ → List ℝ → List ℝ) (i : ℕ) (hi : i < dim) :
    (estimate_scale2 dim atol rtol (tol_scaling yo)).getD i 0
      = (Real.exp atol + Real.exp rtol * (tol_scaling yo).getD i 0) ^ 2 ∧
    leapfrog_estimate_step drift kick dim yo dtP t rtol atol tol_scaling metric
      = stepSearchLoop (leapfrogErrStep drift kick dim yo (t.getD 0 0)
          (estimate_scale2 dim atol rtol (tol_scaling yo)) metric) dtP searchFuel
          (dtP * 2) 2 ∧
    symplec4_estimate_step drift kick dim yo dtP t rtol atol tol_scaling metric
      = stepSearchLoop (symplec4ErrStep drift kick dim yo (t.getD 0 0)
          (estimate_scale2 dim atol rtol (tol_scaling yo)) metric) dtP searchFuel
          (dtP * 2) 2 :=
  ⟨estimate_scale2_getD dim atol rtol (tol_scaling yo) i hi, rfl, rfl⟩

/-- Witness for C2 (amended) at dim = 1, i = 0. -/
theorem C2_log_space_tolerance_witness :
    (estimate_scale2 1 0 0 ((fun _ => [0]) [(5 : ℝ)])).getD 0 0
      = (Real.exp 0 + Real.exp 0 * (((fun _ => [0]) [(5 : ℝ)]).getD 0 0)) ^ 2 ∧
    leapfrog_estimate_step (fun _ y => y) (fun _ _ y => y) 1 [5] 1 [0, 1] 0 0
        (fun _ => [0]) (fun _ _ _ => [0])
      = stepSearchLoop (leapfrogErrStep (fun _ y => y) (fun _ _ y => y) 1 [5]
          ([(0 : ℝ), 1].getD 0 0) (estimate_scale2 1 0 0 ((fun _ => [0]) [(5 : ℝ)]))
          (fun _ _ _ => [0])) 1 searchFuel (1 * 2) 2 ∧
    symplec4_estimate_step (fun _ y => y) (fun _ _ y => y) 1 [5] 1 [0, 1] 0 0
        (fun _ => [0]) (fun _ _ _ => [0])
      = stepSearchLoop (symplec4ErrStep (fun _ y => y) (fun _ _ y => y) 1 [5]
          ([(0 : ℝ), 1].getD 0 0) (estimate_scale2 1 0 0 ((fun _ => [0]) [(5 : ℝ)]))
          (fun _ _ _ => [0])) 1 searchFuel (1 * 2) 2 :=
  C2_log_space_tolerance (fun _ y => y) (fun _ _ y => y) 1 [5] 1 [0, 1] 0 0
    (fun _ => [0]) (fun _ _ _ => [0]) 0 (by norm_num)

/-- Claim C4: every step-size search (all three variants) doubles its probe,
then repeatedly halves while the normalized error exceeds 1 and the ratio
interval/dt is below the 10000 cap; for a positive probe the guard fails within
15 halvings, so the loop always terminates through its guard, returning
dt = probe * 2 / 2^k (that is, probe * 2^(1-k)) where k is the number of
halvings, with the guard true at every earlier step; when it is the cap that
fails the guard, the smallest dt reached is still returned. -/
theorem C4_search_termination (drift : ℝ → List ℝ → List ℝ)
    (kick : ℝ → ℝ → List ℝ → List ℝ) (func : ℝ → List ℝ → List ℝ) (dim dim6 : ℕ)
    (yo qo po : List ℝ) (dtP : ℝ) (t : List ℝ) (rtol atol : ℝ)
    (tol_scaling : List ℝ → List ℝ) (metric : ℕ → List ℝ → List ℝ → List ℝ)
    (h : 0 < dtP) :
    (∃ k, k ≤ 15 ∧
      leapfrog_estimate_step drift kick dim yo dtP t rtol atol tol_scaling metric
        = dtP * 2 / 2 ^ k ∧
      ¬ searchGuard (leapfrogErrStep drift kick dim yo (t.getD 0 0)
          (estimate_scale2 dim atol rtol (tol_scaling yo)) metric) dtP k ∧
      ∀ j, j < k → searchGuard (leapfrogErrStep drift kick dim yo (t.getD 0 0)
          (estimate_scale2 dim atol rtol (tol_scaling yo)) metric) dtP j) ∧
    (∃ k, k ≤ 15 ∧
      symplec4_estimate_step drift kick dim yo dtP t rtol atol tol_scaling metric
        = dtP * 2 / 2 ^ k ∧
      ¬ searchGuard (symplec4ErrStep drift kick dim yo (t.getD 0 0)
          (estimate_scale2 dim atol rtol (tol_scaling yo)) metric) dtP k ∧
      ∀ j, j < k → searchGuard (symplec4ErrStep drift kick dim yo (t.getD 0 0)
          (estimate_scale2 dim atol rtol (tol_scaling yo)) metric) dtP j) ∧
    (∃ k, k ≤ 15 ∧
      symplec6_estimate_step func dim6 qo po dtP t rtol atol = dtP * 2 / 2 ^ k ∧
      ¬ searchGuard (symplec6ErrStep func dim6 qo po (t.getD 0 0)
          (s6scale dim6 atol rtol qo po)) dtP k ∧
      ∀ j, j < k → searchGuard (symplec6ErrStep func dim6 qo po (t.getD 0 0)
          (s6scale dim6 atol rtol qo po)) dtP j) := by
  have key : ∀ errStep : ℝ → ℝ → ℝ, ∃ k, k ≤ 15 ∧
      stepSearchLoop errStep dtP searchFuel (dtP * 2) 2 = dtP * 2 / 2 ^ k ∧
      ¬ searchGuard errStep dtP k ∧ ∀ j, j < k → searchGuard errStep dtP j := by
    intro errStep
    obtain ⟨k, _, hk2, hk3, hk4, hk5⟩ :=
      stepSearchLoop_spec errStep dtP h searchFuel 0 (by norm_num [searchFuel]) (by norm_num)
    refine ⟨k, hk2, ?_, hk4, fun j hj => hk5 j (by omega) hj⟩
    have h0 : (2 : ℝ) * dtP / 2 ^ 0 = dtP * 2 := by
      rw [pow_zero, div_one]
      ring
    calc stepSearchLoop errStep dtP searchFuel (dtP * 2) 2
        = stepSearchLoop errStep dtP searchFuel (2 * dtP / 2 ^ 0) (errSeq errStep dtP 0) := by
          rw [h0]
          rfl
    _ = 2 * dtP / 2 ^ k := hk3
    _ = dtP * 2 / 2 ^ k := by ring
  exact ⟨key _, key _, key _⟩

/-- Witness for C4 at probe 1 with trivial kernels. -/
theorem C4_search_termination_witness :
    (∃ k, k ≤ 15 ∧
      leapfrog_estimate_step (fun _ y => y) (fun _ _ y => y) 1 [0] 1 [0, 1] 0 0
          (fun _ => [0]) (fun _ _ _ => [0]) = 1 * 2 / 2 ^ k ∧
      ¬ searchGuard (leapfrogErrStep (fun _ y => y) (fun _ _ y => y) 1 [0]
          ([(0 : ℝ), 1].getD 0 0) (estimate_scale2 1 0 0 ((fun _ => [0]) [(0 : ℝ)]))
          (fun _ _ _ => [0])) 1 k ∧
      ∀ j, j < k → searchGuard (leapfrogErrStep (fun _ y => y) (fun _ _ y => y) 1 [0]
          ([(0 : ℝ), 1].getD 0 0) (estimate_scale2 1 0 0 ((fun _ => [0]) [(0 : ℝ)]))
          (fun _ _ _ => [0])) 1 j) ∧
    (∃ k, k ≤ 15 ∧
      symplec4_estimate_step (fun _ y => y) (fun _ _ y => y) 1 [0] 1 [0, 1] 0 0
          (fun _ => [0]) (fun _ _ _ => [0]) = 1 * 2 / 2 ^ k ∧
      ¬ searchGuard (symplec4ErrStep (fun _ y => y) (fun _ _ y => y) 1 [0]
          ([(0 : ℝ), 1].getD 0 0) (estimate_scale2 1 0 0 ((fun _ => [0]) [(0 : ℝ)]))
          (fun _ _ _ => [0])) 1 k ∧
      ∀ j, j < k → searchGuard (symplec4ErrStep (fun _ y => y) (fun _ _ y => y) 1 [0]
          ([(0 : ℝ), 1].getD 0 0) (estimate_scale2 1 0 0 ((fun _ => [0]) [(0 : ℝ)]))
          (fun _ _ _ => [0])) 1 j) ∧
    (∃ k, k ≤ 15 ∧
      symplec6_estimate_step (fun _ q => q) 1 [1] [0] 1 [0, 1] 0 0 = 1 * 2 / 2 ^ k ∧
      ¬ searchGuard (symplec6ErrStep (fun _ q => q) 1 [1] [0]
          ([(0 : ℝ), 1].getD 0 0) (s6scale 1 0 0 [1] [0])) 1 k ∧
      ∀ j, j < k → searchGuard (symplec6ErrStep (fun _ q => q) 1 [1] [0]
          ([(0 : ℝ), 1].getD 0 0) (s6scale 1 0 0 [1] [0])) 1 j) :=
  C4_search_termination (fun _ y => y) (fun _ _ y => y) (fun _ q => q) 1 1 [0] [1] [0] 1
    [0, 1] 0 0 (fun _ => [0]) (fun _ _ _ => [0]) (by norm_num)

theorem errAccum_succ (d : ℕ) (delta s : List ℝ) (e : ℝ) :
    errAccum (d + 1) delta s e =
      errAccum d delta s e + delta.getD d 0 * delta.getD d 0 / s.getD d 0 := by
  simp [errAccum, List.range_succ, List.foldl_append]

theorem errAccum_eq (dim : ℕ) (delta s : List ℝ) (e : ℝ) :
    errAccum dim delta s e =
      e + ∑ ii ∈ Finset.range dim, delta.getD ii 0 * delta.getD ii 0 / s.getD ii 0 := by
  induction dim with
  | zero => simp [errAccum]
  | succ d ih =>
    rw [errAccum_succ, ih, Finset.sum_range_succ]
    ring

theorem leapfrogErrStep_def (drift : ℝ → List ℝ → List ℝ) (kick : ℝ → ℝ → List ℝ → List ℝ)
    (dim : ℕ) (yo : List ℝ) (tnow : ℝ) (scale2 : List ℝ)
    (metric : ℕ → List ℝ → List ℝ → List ℝ) (dt e : ℝ) :
    leapfrogErrStep drift kick dim yo tnow scale2 metric dt e =
      Real.sqrt (errAccum dim
        (metric dim
          (drift (dt / 2) (kick dt (tnow + dt / 2) (drift (dt / 2) yo)))
          (drift (dt / 4) (kick (dt / 2) (tnow + 3 * dt / 4)
            (drift (dt / 2) (kick (dt / 2) (tnow + dt / 4) (drift (dt / 4) yo))))))
        scale2 0 / dim) := rfl

theorem leapfrogErrStep_scale_mono (drift : ℝ → List ℝ → List ℝ)
    (kick : ℝ → ℝ → List ℝ → List ℝ) (dim : ℕ) (yo : List ℝ) (tnow : ℝ)
    (sA sB : List ℝ) (metric : ℕ → List ℝ → List ℝ → List ℝ) (dt e1 e2 : ℝ)
    (hs : ∀ i, i < dim → 0 < sB.getD i 0 ∧ sB.getD i 0 ≤ sA.getD i 0) :
    leapfrogErrStep drift kick dim yo tnow sA metric dt e1 ≤
      leapfrogErrStep drift kick dim yo tnow sB metric dt e2 := by
  rw [leapfrogErrStep_def, leapfrogErrStep_def]
  apply Real.sqrt_le_sqrt
  rcases Nat.eq_zero_or_pos dim with h0 | hpos
  · rw [h0]
    norm_num [errAccum]
  · rw [div_le_div_iff_of_pos_right (by exact_mod_cast hpos)]
    rw [errAccum_eq, errAccum_eq]
    simp only [zero_add]
    apply Finset.sum_le_sum
    intro ii hii
    obtain ⟨hb, hba⟩ := hs ii (Finset.mem_range.mp hii)
    exact div_le_div_of_nonneg_left (mul_self_nonneg _) hb hba

/-- Claim C8 (amended): for the leapfrog step-size search with all other inputs
fixed, any change of atol, rtol, or the scaling output under which every
per-component scale exp(atol) + exp(rtol)*scaling_i stays positive and does not
increase (e.g. genuinely tightening the requested tolerance) never increases the
returned step size.  (Without the positivity proviso the claim fails: see the
counterexample, where a negative scale enters squared.) -/
theorem C8_tolerance_monotone (drift : ℝ → List ℝ → List ℝ)
    (kick : ℝ → ℝ → List ℝ → List ℝ) (dim : ℕ) (yo : List ℝ) (dtP : ℝ) (t : List ℝ)
    (rtolA atolA rtolB atolB : ℝ) (tsA tsB : List ℝ → List ℝ)
    (metric : ℕ → List ℝ → List ℝ → List ℝ) (hdt : 0 < dtP)
    (hpos : ∀ i, i < dim → 0 < Real.exp atolB + Real.exp rtolB * (tsB yo).getD i 0)
    (hle : ∀ i, i < dim →
      Real.exp atolB + Real.exp rtolB * (tsB yo).getD i 0
        ≤ Real.exp atolA + Real.exp rtolA * (tsA yo).getD i 0) :
    leapfrog_estimate_step drift kick dim yo dtP t rtolB atolB tsB metric
      ≤ leapfrog_estimate_step drift kick dim yo dtP t rtolA atolA tsA metric := by
  have hs : ∀ i, i < dim →
      0 < (estimate_scale2 dim atolB rtolB (tsB yo)).getD i 0 ∧
      (estimate_scale2 dim atolB rtolB (tsB yo)).getD i 0
        ≤ (estimate_scale2 dim atolA rtolA (tsA yo)).getD i 0 := by
    intro i hi
    rw [estimate_scale2_getD _ _ _ _ _ hi, estimate_scale2_getD _ _ _ _ _ hi]
    exact ⟨pow_pos (hpos i hi) 2, pow_le_pow_left₀ (le_of_lt (hpos i hi)) (hle i hi) 2⟩
  exact stepSearchLoop_mono
    (leapfrogErrStep drift kick dim yo (t.getD 0 0)
      (estimate_scale2 dim atolA rtolA (tsA yo)) metric)
    (leapfrogErrStep drift kick dim yo (t.getD 0 0)
      (estimate_scale2 dim atolB rtolB (tsB yo)) metric)
    dtP (fun _ _ _ => rfl)
    (fun d e => leapfrogErrStep_scale_mono drift kick dim yo (t.getD 0 0) _ _ metric d e e hs)
    searchFuel (dtP * 2) 2 2 (by linarith) le_rfl

/-- Witness for C8 (amended) at dim = 1 with identical tolerance configurations. -/
theorem C8_tolerance_monotone_witness :
    leapfrog_estimate_step zDrift zKick 1 [0] 1 [0, 1] 0 0 zScaling zMetric
      ≤ leapfrog_estimate_step zDrift zKick 1 [0] 1 [0, 1] 0 0 zScaling zMetric :=
  C8_tolerance_monotone zDrift zKick 1 [0] 1 [0, 1] 0 0 0 0 zScaling zScaling zMetric
    (by norm_num)
    (fun i hi => by
      interval_cases i
      norm_num [zScaling, Real.exp_zero])
    (fun i hi => le_rfl)

theorem cex_scaleA : estimate_scale2 1 0 0 ((fun _ : List ℝ => [(0 : ℝ)]) [0]) = [1] := by
  norm_num [estimate_scale2, List.range_succ, List.range_zero, Real.exp_zero]

theorem cex_scaleB : estimate_scale2 1 0 0 ((fun _ : List ℝ => [(-3 : ℝ)]) [0]) = [4] := by
  norm_num [estimate_scale2, List.range_succ, List.range_zero, Real.exp_zero]

theorem cex_errA_two :
    leapfrogErrStep zDrift cexKick 1 [0] (([(0 : ℝ), 2]).getD 0 0) [1] cexMetric 2 2 = 2 := by
  rw [leapfrogErrStep_def]
  norm_num [zDrift, cexKick, cexMetric, errAccum, List.range_succ, List.range_zero]
  rw [show (4 : ℝ) = 2 ^ 2 by norm_num, Real.sqrt_sq (by norm_num : (0 : ℝ) ≤ 2)]

theorem cex_errA_one :
    leapfrogErrStep zDrift cexKick 1 [0] (([(0 : ℝ), 2]).getD 0 0) [1] cexMetric 1 2
      = 1 / 2 := by
  rw [leapfrogErrStep_def]
  norm_num [zDrift, cexKick, cexMetric, errAccum, List.range_succ, List.range_zero]
  rw [show (4 : ℝ) = 2 ^ 2 by norm_num, Real.sqrt_sq (by norm_num : (0 : ℝ) ≤ 2)]
  norm_num

theorem cex_errB_two :
    leapfrogErrStep zDrift cexKick 1 [0] (([(0 : ℝ), 2]).getD 0 0) [4] cexMetric 2 2 = 1 := by
  rw [leapfrogErrStep_def]
  norm_num [zDrift, cexKick, cexMetric, errAccum, List.range_succ, List.range_zero]

/-- Claim C8 counterexample: with all other inputs fixed, changing the scaling
output from 0 to -3 lowers the per-component scale exp(0) + exp(0)*scaling from
1 to -2 (so no per-component scale increases, the claimed notion of tightening),
yet the returned step size grows from 1 to 2, because the scale enters the error
normalization squared. -/
theorem C8_counterexample :
    leapfrog_estimate_step zDrift cexKick 1 [0] 2 [0, 2] 0 0 (fun _ => [-3]) cexMetric
        = 2 ∧
    leapfrog_estimate_step zDrift cexKick 1 [0] 2 [0, 2] 0 0 (fun _ => [0]) cexMetric
        = 1 ∧
    Real.exp 0 + Real.exp 0 * (-3) ≤ Real.exp 0 + Real.exp 0 * 0 ∧
    ¬ ((2 : ℝ) ≤ 1) := by
  refine ⟨?_, ?_, by norm_num [Real.exp_zero], by norm_num⟩
  · show stepSearchLoop (leapfrogErrStep zDrift cexKick 1 [0] (([(0 : ℝ), 2]).getD 0 0)
        (estimate_scale2 1 0 0 ((fun _ : List ℝ => [(-3 : ℝ)]) [0])) cexMetric) 2
        searchFuel (2 * 2) 2 = 2
    rw [cex_scaleB, show searchFuel = 99 + 1 from rfl, stepSearchLoop_succ,
      if_pos (by norm_num), show (2 : ℝ) * 2 / 2 = 2 by norm_num, cex_errB_two,
      stepSearchLoop_stop _ _ _ _ (by norm_num)]
  · show stepSearchLoop (leapfrogErrStep zDrift cexKick 1 [0] (([(0 : ℝ), 2]).getD 0 0)
        (estimate_scale2 1 0 0 ((fun _ : List ℝ => [(0 : ℝ)]) [0])) cexMetric) 2
        searchFuel (2 * 2) 2 = 1
    rw [cex_scaleA, show searchFuel = 99 + 1 from rfl, stepSearchLoop_succ,
      if_pos (by norm_num), show (2 : ℝ) * 2 / 2 = 2 by norm_num, cex_errA_two,
      show (99 : ℕ) = 98 + 1 from rfl, stepSearchLoop_succ, if_pos (by norm_num),
      show (2 : ℝ) / 2 = 1 by norm_num, cex_errA_one,
      stepSearchLoop_stop _ _ _ _ (by norm_num)]

theorem z_s4_errStep (dt e : ℝ) :
    symplec4ErrStep zDrift zKick 1 [0] (([(0 : ℝ), 1]).getD 0 0)
      (estimate_scale2 1 0 0 (zScaling [0])) zMetric dt e = Real.sqrt e := by
  simp [symplec4ErrStep, zDrift, zKick, zMetric, zScaling, errAccum, List.range_succ, List.range_zero,
    estimate_scale2, Real.exp_zero]

theorem z_lf_errStep (dt e : ℝ) :
    leapfrogErrStep zDrift zKick 1 [0] (([(0 : ℝ), 1]).getD 0 0)
      (estimate_scale2 1 0 0 (zScaling [0])) zMetric dt e = 0 := by
  rw [leapfrogErrStep_def]
  simp [zMetric, zScaling, errAccum, List.range_succ, List.range_zero, estimate_scale2, Real.exp_zero]

/-- Claim C3 (code-bug evidence): with a metric that always reports a zero
difference (dim 1, unit scale, probe 1), the claimed formula
err = sqrt(mean((delta/scale)^2)) is 0 from the first halving on, and
leapfrog_estimate_step, which does reset its accumulator (err= 0.) each
iteration, accordingly returns the probe 1; symplec4_estimate_step has no such
reset, so its accumulator keeps the initial 2.0 (each iteration computes
sqrt of the carried value, which stays above 1 forever), the search runs to the
10000 cap and returns 1/2^14 instead. -/
theorem C3_symplec4_err_carryover :
    symplec4_estimate_step zDrift zKick 1 [0] 1 [0, 1] 0 0 zScaling zMetric = 1 / 2 ^ 14 ∧
    leapfrog_estimate_step zDrift zKick 1 [0] 1 [0, 1] 0 0 zScaling zMetric = 1 ∧
    (1 : ℝ) / 2 ^ 14 ≠ 1 := by
  refine ⟨?_, ?_, by norm_num⟩
  · show stepSearchLoop (symplec4ErrStep zDrift zKick 1 [0] (([(0 : ℝ), 1]).getD 0 0)
        (estimate_scale2 1 0 0 (zScaling [0])) zMetric) 1 searchFuel (1 * 2) 2 = 1 / 2 ^ 14
    have hpres : ∀ d e, 1 < e →
        1 < symplec4ErrStep zDrift zKick 1 [0] (([(0 : ℝ), 1]).getD 0 0)
          (estimate_scale2 1 0 0 (zScaling [0])) zMetric d e := by
      intro d e he
      rw [z_s4_errStep d e]
      calc (1 : ℝ) = Real.sqrt 1 := Real.sqrt_one.symm
      _ < Real.sqrt e := Real.sqrt_lt_sqrt (by norm_num) he
    rw [show (1 : ℝ) * 2 = 2 * 1 by ring,
      stepSearchLoop_cap _ 1 (by norm_num) hpres]
    norm_num
  · show stepSearchLoop (leapfrogErrStep zDrift zKick 1 [0] (([(0 : ℝ), 1]).getD 0 0)
        (estimate_scale2 1 0 0 (zScaling [0])) zMetric) 1 searchFuel (1 * 2) 2 = 1
    rw [show searchFuel = 99 + 1 from rfl, stepSearchLoop_succ, if_pos (by norm_num),
      show (1 : ℝ) * 2 / 2 = 1 by norm_num, z_lf_errStep,
      stepSearchLoop_stop _ _ _ _ (by norm_num)]

end

end Galpy
